import Mathlib

/-!
Shallow embedding of the voucher / loyalty / audit core of the Wifi-Portal
repository (backend/utils/voucher.js, backend/utils/audit.js,
backend/routes/vouchers.js, backend/models/database.js).

Conventions of the embedding:
* timestamps are natural numbers (milliseconds since an arbitrary epoch);
  `new Date(a) < new Date(b)` on ISO strings becomes `a < b` on `Nat`;
  the `created_at > ?` comparisons inside the anomaly queries, however, are
  SQLite TEXT comparisons of a `YYYY-MM-DD HH:MM:SS` column against an ISO
  cutoff, which hold iff the row's calendar date exceeds the cutoff's; they
  are modelled as day-level comparisons (see `countLoginFailed`);
* the SQLite tables become lists of records inside a `Db` value; a SQL
  `SELECT ... WHERE x = ?` returning one row becomes `List.find?`, an
  `UPDATE ... WHERE x = ?` becomes `List.map` over the rows;
* `crypto.randomBytes`-based code generation becomes an explicit stream of
  pre-drawn codes (`codeSupply`) inside the state: each call to the
  generator consumes exactly one element, which makes the number of
  generation attempts observable;
* JavaScript exceptions become `Except` values; a `try/catch` that swallows
  the error becomes a `match` that restores the pre-failure state;
* the fallible database driver / anomaly queries are modelled by a `Faults`
  record saying which low-level operation throws.
-/

namespace WifiPortal

/-- Voucher lifecycle status, the `status` column of the `vouchers` table. -/
inductive VoucherStatus
  | active
  | redeemed
  | expired
  | cancelled
deriving DecidableEq, Repr

/-- A row of the `vouchers` table (fields not touched by the modelled logic,
such as the QR/barcode data URLs and the free-text description, are omitted). -/
structure Voucher where
  id : Nat
  user_id : Option Nat
  site_id : Option Nat
  code : String
  vtype : String
  title : String
  value : Nat
  status : VoucherStatus
  expires_at : Nat
  redeemed_at : Option Nat
  redeemed_by : Option Nat
deriving DecidableEq, Repr

/-- A row of the `users` table (loyalty-relevant columns). -/
structure User where
  id : Nat
  site_id : Option Nat
  visit_count : Nat
  loyalty_tier : String
deriving DecidableEq, Repr

/-- A row of the `staff` table (daily staff-WiFi voucher columns). -/
structure StaffMember where
  id : Nat
  site_id : Option Nat
  email : String
  daily_voucher_used : Bool
  last_voucher_date : Option String
deriving DecidableEq, Repr

/-- A row of the `audit_log` table.  The JSON `details` column is modelled by
its `alert_type` discriminant, the only detail field the embedded logic ever
depends on; the counting queries of `checkSecurityAlerts` read only the
top-level `action`, `ip_address`, `user_id` and `created_at` columns. -/
structure AuditEvent where
  user_type : String
  user_id : Option Nat
  action : String
  resource : Option String
  alert_type : Option String
  ip_address : Option String
  created_at : Nat
deriving DecidableEq, Repr

/-- The `eventData` argument of `auditLog`. -/
structure EventData where
  user_type : String
  user_id : Option Nat
  action : String
  resource : Option String
  alert_type : Option String
  ip_address : Option String
deriving DecidableEq, Repr

/-- Which low-level operations throw, modelling store and query failures. -/
structure Faults where
  insertFails : Bool
  queryFails : Bool
deriving DecidableEq, Repr

def noFaults : Faults := ⟨false, false⟩

/-- The database state (plus the pre-drawn random code stream). -/
structure Db where
  vouchers : List Voucher
  users : List User
  staff : List StaffMember
  audit_log : List AuditEvent
  codeSupply : List String
  nextVoucherId : Nat
deriving DecidableEq, Repr

/-- The query `SELECT ... FROM vouchers WHERE code = ?`. -/
def findVoucherByCode (db : Db) (code : String) : Option Voucher :=
  db.vouchers.find? (fun v => v.code = code)

/-- The query `SELECT * FROM users WHERE id = ?`. -/
def findUser (db : Db) (uid : Nat) : Option User :=
  db.users.find? (fun u => u.id = uid)

/-- The query `SELECT * FROM staff WHERE id = ?`. -/
def findStaffById (db : Db) (sid : Nat) : Option StaffMember :=
  db.staff.find? (fun s => s.id = sid)

/-- The query `SELECT * FROM staff WHERE email = ?`. -/
def findStaffByEmail (db : Db) (em : String) : Option StaffMember :=
  db.staff.find? (fun s => s.email = em)

/-! ## utils/audit.js -/

/-- The UTC calendar day of a timestamp in milliseconds since the epoch.
Audit rows are written by SQLite's `DEFAULT CURRENT_TIMESTAMP` (UTC) and the
anomaly cutoffs come from JavaScript's `toISOString()` (UTC), so both sides'
date parts are UTC dates. -/
def dayOf (t : Nat) : Nat := t / 86400000

/-- The `SELECT COUNT(*)` of `login_failed` rows from one origin with
`created_at > ?`.  The `audit_log` INSERT omits `created_at`, so rows carry
SQLite's default text `YYYY-MM-DD HH:MM:SS`, while the bound parameter is an
ISO string `YYYY-MM-DDTHH:MM:SS.sssZ`; SQLite compares the two as TEXT, and
since the space at index 10 sorts below `'T'`, a row of the same calendar
date as the cutoff compares *below* it.  The comparison therefore holds iff
the row's calendar date is strictly greater than the cutoff's calendar date
(dates themselves order correctly as zero-padded text), which is what
`dayOf cutoff < dayOf ev.created_at` captures — not a trailing
60-minute window. -/
def countLoginFailed (log : List AuditEvent) (ip : String) (cutoff : Nat) : Nat :=
  (log.filter (fun ev =>
    ev.action = "login_failed" ∧ ev.ip_address = some ip ∧
    dayOf cutoff < dayOf ev.created_at)).length

/-- The `SELECT COUNT(*)` of `voucher_redeemed` rows for one user with
`created_at > ?` against `todayStart.toISOString()`: the same mixed-format
TEXT comparison as in `countLoginFailed`, so a row counts iff its calendar
date is strictly greater than the cutoff's calendar date. -/
def countRedemptions (log : List AuditEvent) (uid : Nat) (todayStart : Nat) : Nat :=
  (log.filter (fun ev =>
    ev.action = "voucher_redeemed" ∧ ev.user_id = some uid ∧
    dayOf todayStart < dayOf ev.created_at)).length

/-- The row `auditLog` inserts for an incoming event. -/
def toAuditEvent (e : EventData) (now : Nat) : AuditEvent :=
  ⟨e.user_type, e.user_id, e.action, e.resource, e.alert_type, e.ip_address, now⟩

/-- The brute-force alert event emitted by `checkSecurityAlerts` (its
`details` carry the offending IP and count; only `alert_type` is modelled). -/
def bruteForceAlert : EventData :=
  ⟨"system", none, "security_alert", some "authentication", some "brute_force_attempt", none⟩

/-- The voucher-abuse alert event emitted by `checkSecurityAlerts`. -/
def voucherAbuseAlert : EventData :=
  ⟨"system", none, "security_alert", some "vouchers", some "voucher_abuse", none⟩

/-- The statement `INSERT INTO audit_log ...`, which throws when the store is failing. -/
def dbInsertAudit (db : Db) (ev : AuditEvent) (f : Faults) : Except String Db :=
  if f.insertFails then Except.error "audit insert failed"
  else Except.ok { db with audit_log := db.audit_log ++ [ev] }

mutual

/-- Source `auditLog(eventData)` from utils/audit.js: insert the event, then run the
anomaly rules; the whole body is wrapped in a `try/catch` that swallows the
error, so an insert failure leaves the state unchanged and returns normally.
The first argument is fuel for the bounded `auditLog`/`checkSecurityAlerts`
re-entry (an emitted alert re-enters `auditLog`, whose action
`security_alert` matches no rule, so the real recursion depth is ≤ 2). -/
def auditLogF : Nat → Faults → Db → EventData → Nat → Nat → Db
  | 0, _, db, _, _, _ => db
  | fuel + 1, f, db, e, now, todayStart =>
    match dbInsertAudit db (toAuditEvent e now) f with
    | Except.error _ => db
    | Except.ok db1 => checkSecurityAlertsF fuel f db1 e now todayStart

/-- Source `checkSecurityAlerts(eventData)` from utils/audit.js.  Its own
`try/catch` swallows query failures, so a failing query leaves the state
unchanged.  `todayStart` is the precomputed local-midnight timestamp. -/
def checkSecurityAlertsF : Nat → Faults → Db → EventData → Nat → Nat → Db
  | 0, _, db, _, _, _ => db
  | fuel + 1, f, db, e, now, todayStart =>
    if f.queryFails then db
    else
      let db1 :=
        if e.action = "login_failed" then
          match e.ip_address with
          | some ip =>
            if 10 ≤ countLoginFailed db.audit_log ip (now - 3600000) then
              auditLogF fuel f db bruteForceAlert now todayStart
            else db
          | none => db
        else db
      if e.action = "voucher_redeemed" then
        match e.user_id with
        | some uid =>
          if 5 ≤ countRedemptions db1.audit_log uid todayStart then
            auditLogF fuel f db1 voucherAbuseAlert now todayStart
          else db1
        | none => db1
      else db1

end

/-- The externally called `auditLog` entry point (fuel 4 strictly dominates
the ≤ 2 re-entry depth of the source). -/
def auditLog (f : Faults) (db : Db) (e : EventData) (now todayStart : Nat) : Db :=
  auditLogF 4 f db e now todayStart

/-- The body of `auditLog` before its top-level `try/catch`: the event insert
can throw; `checkSecurityAlerts` never propagates (it catches internally). -/
def auditLogBody (f : Faults) (db : Db) (e : EventData) (now todayStart : Nat) :
    Except String Db :=
  match dbInsertAudit db (toAuditEvent e now) f with
  | Except.error msg => Except.error msg
  | Except.ok db1 => Except.ok (checkSecurityAlertsF 3 f db1 e now todayStart)

/-- The call `auditLog` as seen by its caller: the body wrapped in the source's
`catch (error) { console.error(...) }`, which logs to the fallback channel
and does not rethrow. -/
def auditLogExc (f : Faults) (db : Db) (e : EventData) (now todayStart : Nat) :
    Except String Db :=
  match auditLogBody f db e now todayStart with
  | Except.ok db1 => Except.ok db1
  | Except.error _ => Except.ok db

/-! ## utils/voucher.js -/

/-- Failure conditions of the creation-side operations.  `DuplicateCode`
models the SQLite `UNIQUE` constraint violation on `vouchers.code`;
`MissingRow` models dereferencing a row that a `SELECT` did not return;
`InvalidTier` is `createLoyaltyReward`'s own throw; `DailyLimitReached` is
`createStaffWiFiVoucher`'s daily-voucher throw. -/
inductive OpError
  | DuplicateCode
  | MissingRow
  | InvalidTier
  | DailyLimitReached
deriving DecidableEq, Repr

/-- Failure conditions of `redeemVoucher`: the four thrown precondition
errors plus propagation of an error raised by the nested loyalty update. -/
inductive RedeemError
  | NotFound
  | AlreadyRedeemed
  | Expired
  | NotActive
  | Internal (e : OpError)
deriving DecidableEq, Repr

/-- Source `generateVoucherCode`: draws the next pre-drawn random code.  The
generator itself cannot fail; an exhausted model stream yields `""`. -/
def generateVoucherCode (db : Db) : String × Db :=
  match db.codeSupply with
  | [] => ("", db)
  | c :: rest => (c, { db with codeSupply := rest })

/-- The `voucherData` argument of `createVoucher`. -/
structure VoucherDraft where
  user_id : Option Nat
  site_id : Option Nat
  vtype : String
  title : String
  value : Nat
  expires_in_hours : Nat
  created_by_type : String
  created_by_id : Option Nat
deriving DecidableEq, Repr

/-- Source `createVoucher(voucherData)`: generate one code, compute the expiry,
insert the row (the `UNIQUE` constraint on `code` rejects a collision — the
source rethrows the constraint error, with no retry), then audit-log the
creation.  On the constraint failure nothing is inserted and no audit event
is written. -/
def createVoucher (f : Faults) (db : Db) (d : VoucherDraft) (now todayStart : Nat) :
    Db × Except OpError Voucher :=
  let (code, db1) := generateVoucherCode db
  let expires_at := now + d.expires_in_hours * 3600000
  if db1.vouchers.any (fun v => v.code = code) then
    (db1, Except.error OpError.DuplicateCode)
  else
    let v : Voucher :=
      ⟨db1.nextVoucherId, d.user_id, d.site_id, code, d.vtype, d.title, d.value,
        VoucherStatus.active, expires_at, none, none⟩
    let db2 := { db1 with
      vouchers := db1.vouchers ++ [v],
      nextVoucherId := db1.nextVoucherId + 1 }
    let ev : EventData :=
      ⟨d.created_by_type, d.created_by_id, "voucher_created", some "vouchers", none, none⟩
    (auditLog f db2 ev now todayStart, Except.ok v)

/-- The tier recomputation inside `updateUserLoyalty` (the `if/else if`
chain over the new visit count). -/
def computeTier (n : Nat) : String :=
  if 30 ≤ n then "Platinum"
  else if 15 ≤ n then "Gold"
  else if 5 ≤ n then "Silver"
  else "Bronze"

/-- The `rewards` table of `createLoyaltyReward`, keyed by the lower-cased
tier name; values are (title, value in cents). -/
def rewardFor (tier : String) : Option (String × Nat) :=
  if tier = "bronze" then some ("Welcome Reward", 500)
  else if tier = "silver" then some ("Silver Member Reward", 800)
  else if tier = "gold" then some ("Gold Member Reward", 1500)
  else if tier = "platinum" then some ("Platinum Patron", 3000)
  else none

/-- Source `createLoyaltyReward(user_id, tier, visits)`: look the reward up by the
lower-cased tier, read the user's site, and create a `loyalty_reward`
voucher valid for one week. -/
def createLoyaltyReward (f : Faults) (db : Db) (uid : Nat) (tier : String)
    (now todayStart : Nat) : Db × Except OpError Voucher :=
  match rewardFor tier.toLower with
  | none => (db, Except.error OpError.InvalidTier)
  | some (title, value) =>
    match findUser db uid with
    | none => (db, Except.error OpError.MissingRow)
    | some u =>
      createVoucher f db
        ⟨some uid, u.site_id, "loyalty_reward", title, value, 168, "system", none⟩
        now todayStart

/-- The `{visit_count, loyalty_tier, tier_changed}` record returned by
`updateUserLoyalty`. -/
structure LoyaltyResult where
  visit_count : Nat
  loyalty_tier : String
  tier_changed : Bool
deriving DecidableEq, Repr

/-- Source `updateUserLoyalty(user_id, action)`: a missing user returns without
effect; otherwise the count is incremented only for `action === 'visit'`,
the tier is recomputed from the new count, the user row is updated, and a
tier-reward voucher is created only when the tier changed *and* the action
was a visit.  A reward-creation failure propagates after the user row has
already been updated (there is no transaction in the source). -/
def updateUserLoyalty (f : Faults) (db : Db) (uid : Nat) (action : String)
    (now todayStart : Nat) : Db × Except OpError (Option LoyaltyResult) :=
  match findUser db uid with
  | none => (db, Except.ok none)
  | some u =>
    let newVisitCount := if action = "visit" then u.visit_count + 1 else u.visit_count
    let newTier := computeTier newVisitCount
    let tierChanged : Bool := newTier ≠ u.loyalty_tier
    let db1 := { db with
      users := db.users.map (fun w =>
        if w.id = uid then { w with visit_count := newVisitCount, loyalty_tier := newTier }
        else w) }
    if tierChanged ∧ action = "visit" then
      match createLoyaltyReward f db1 uid newTier now todayStart with
      | (db2, Except.error e) => (db2, Except.error e)
      | (db2, Except.ok _) =>
        (db2, Except.ok (some ⟨newVisitCount, newTier, tierChanged⟩))
    else
      (db1, Except.ok (some ⟨newVisitCount, newTier, tierChanged⟩))

/-- The spec's `recordVisit(customerId)`: `updateUserLoyalty` on the visit
path. -/
def recordVisit (f : Faults) (db : Db) (uid : Nat) (now todayStart : Nat) :
    Db × Except OpError (Option LoyaltyResult) :=
  updateUserLoyalty f db uid "visit" now todayStart

/-- Source `redeemVoucher(code, redeemed_by)`: look the voucher up by code, check
redeemed / expired / active in that order, then run the *unconditional*
`UPDATE vouchers SET status='redeemed', ... WHERE id = ?`, the conditional
loyalty update (`action = 'redemption'`), and the audit event.  The returned
voucher is the originally fetched row spread with the new status fields. -/
def redeemVoucher (f : Faults) (db : Db) (code : String) (redeemerId : Nat)
    (now todayStart : Nat) : Db × Except RedeemError Voucher :=
  match findVoucherByCode db code with
  | none => (db, Except.error RedeemError.NotFound)
  | some v =>
    if v.status = VoucherStatus.redeemed then
      (db, Except.error RedeemError.AlreadyRedeemed)
    else if v.expires_at < now then
      (db, Except.error RedeemError.Expired)
    else if v.status ≠ VoucherStatus.active then
      (db, Except.error RedeemError.NotActive)
    else
      let db1 := { db with
        vouchers := db.vouchers.map (fun w =>
          if w.id = v.id then
            { w with status := VoucherStatus.redeemed,
                     redeemed_at := some now,
                     redeemed_by := some redeemerId }
          else w) }
      let loyaltyStep :=
        match v.user_id with
        | some uid =>
          if v.vtype = "loyalty_reward" then
            updateUserLoyalty f db1 uid "redemption" now todayStart
          else (db1, Except.ok none)
        | none => (db1, Except.ok none)
      match loyaltyStep with
      | (db2, Except.error e) => (db2, Except.error (RedeemError.Internal e))
      | (db2, Except.ok _) =>
        let ev : EventData :=
          ⟨"staff", some redeemerId, "voucher_redeemed", some "vouchers", none, none⟩
        let db3 := auditLog f db2 ev now todayStart
        (db3, Except.ok
          { v with status := VoucherStatus.redeemed,
                   redeemed_at := some now,
                   redeemed_by := some redeemerId })

/-- Source `createStaffWiFiVoucher(staff_id)`: fetch the staff row, throw
`DailyLimitReached` when today's voucher was already used, otherwise create
the `staff_wifi` voucher and only then mark the daily flag.  `today` is the
wall-clock date string (`YYYY-MM-DD`). -/
def createStaffWiFiVoucher (f : Faults) (db : Db) (staffId : Nat) (today : String)
    (now todayStart : Nat) : Db × Except OpError Voucher :=
  match findStaffById db staffId with
  | none => (db, Except.error OpError.MissingRow)
  | some st =>
    if st.last_voucher_date = some today ∧ st.daily_voucher_used then
      (db, Except.error OpError.DailyLimitReached)
    else
      match createVoucher f db
        ⟨none, st.site_id, "staff_wifi", "Staff WiFi Access", 0, 24, "staff", some staffId⟩
        now todayStart with
      | (db1, Except.error e) => (db1, Except.error e)
      | (db1, Except.ok v) =>
        let db2 := { db1 with
          staff := db1.staff.map (fun s =>
            if s.id = staffId then
              { s with daily_voucher_used := true, last_voucher_date := some today }
            else s) }
        (db2, Except.ok v)

/-! ## routes/vouchers.js -/

/-- The `PATCH /:id/status` route: the validator admits only `active`,
`expired` and `cancelled`, a missing voucher is a 404, and a redeemed
voucher's status can never be changed (terminal).  Only the resulting state
is modelled. -/
def setVoucherStatus (db : Db) (vid : Nat) (newStatus : VoucherStatus) : Db :=
  if newStatus = VoucherStatus.redeemed then db
  else
    match db.vouchers.find? (fun v => v.id = vid) with
    | none => db
    | some v =>
      if v.status = VoucherStatus.redeemed then db
      else
        { db with vouchers := db.vouchers.map (fun w =>
            if w.id = vid then { w with status := newStatus } else w) }

/-- The `POST /staff-wifi/override` route: find the staff member by email,
reset the daily flag with `UPDATE staff SET daily_voucher_used = 0`, create
the staff voucher, then audit the override with the manager's identity and
the mandatory reason (only the reason's presence matters to the model). -/
def overrideStaffWiFi (f : Faults) (db : Db) (staffEmail : String) (managerId : Nat)
    (today : String) (now todayStart : Nat) : Db × Except OpError Voucher :=
  match findStaffByEmail db staffEmail with
  | none => (db, Except.error OpError.MissingRow)
  | some st =>
    let db1 := { db with
      staff := db.staff.map (fun s =>
        if s.id = st.id then { s with daily_voucher_used := false } else s) }
    match createStaffWiFiVoucher f db1 st.id today now todayStart with
    | (db2, Except.error e) => (db2, Except.error e)
    | (db2, Except.ok v) =>
      let ev : EventData :=
        ⟨"staff", some managerId, "staff_wifi_override", some "vouchers", none, none⟩
      (auditLog f db2 ev now todayStart, Except.ok v)

/-! ## Sequences of API operations

`Op` enumerates the state-changing entry points of the modelled core, so
that persistence of facts (a redeemed voucher stays redeemed) can be stated
over arbitrary subsequent activity, not just over single calls. -/

inductive Op
  | redeem (code : String) (redeemerId : Nat) (now todayStart : Nat)
  | create (d : VoucherDraft) (now todayStart : Nat)
  | staffWifi (staffId : Nat) (today : String) (now todayStart : Nat)
  | overrideStaff (staffEmail : String) (managerId : Nat) (today : String) (now todayStart : Nat)
  | visit (uid : Nat) (now todayStart : Nat)
  | setStatus (vid : Nat) (st : VoucherStatus)
  | audit (e : EventData) (now todayStart : Nat)
deriving Repr

/-- The state reached by one API operation (its returned value or error is
irrelevant to state persistence). -/
def applyOp (f : Faults) (db : Db) : Op → Db
  | Op.redeem code rid now ts => (redeemVoucher f db code rid now ts).1
  | Op.create d now ts => (createVoucher f db d now ts).1
  | Op.staffWifi sid today now ts => (createStaffWiFiVoucher f db sid today now ts).1
  | Op.overrideStaff em mid today now ts => (overrideStaffWiFi f db em mid today now ts).1
  | Op.visit uid now ts => (recordVisit f db uid now ts).1
  | Op.setStatus vid st => setVoucherStatus db vid st
  | Op.audit e now ts => auditLog f db e now ts

/-- The state reached by a sequence of API operations. -/
def applyOps (f : Faults) (db : Db) : List Op → Db
  | [] => db
  | op :: ops => applyOps f (applyOp f db op) ops

/-- The voucher carrying `code` (the first such row of the table) is in the
terminal `redeemed` status. -/
def redeemedIn (l : List Voucher) (code : String) : Prop :=
  ∃ v, l.find? (fun x => x.code = code) = some v ∧ v.status = VoucherStatus.redeemed

instance (l : List Voucher) (code : String) : Decidable (redeemedIn l code) := by
  unfold redeemedIn
  cases h : l.find? (fun x => x.code = code) with
  | none => exact Decidable.isFalse (by simp)
  | some v =>
    exact decidable_of_iff (v.status = VoucherStatus.redeemed) (by simp)

/-- The voucher carrying `code` is redeemed in the database state. -/
def isRedeemed (db : Db) (code : String) : Prop :=
  redeemedIn db.vouchers code

instance (db : Db) (code : String) : Decidable (isRedeemed db code) :=
  inferInstanceAs (Decidable (redeemedIn db.vouchers code))

/-- Well-formedness of a voucher table against its autoincrement counter:
ids are pairwise distinct and below the next id (what SQLite's
`INTEGER PRIMARY KEY AUTOINCREMENT` guarantees). -/
def WFl (l : List Voucher) (n : Nat) : Prop :=
  (l.map (fun v => v.id)).Nodup ∧ ∀ v ∈ l, v.id < n

/-- Well-formedness of the database state's voucher table. -/
def WF (db : Db) : Prop :=
  WFl db.vouchers db.nextVoucherId

instance (l : List Voucher) (n : Nat) : Decidable (WFl l n) := by
  unfold WFl; infer_instance

instance (db : Db) : Decidable (WF db) := by
  unfold WF; infer_instance

/-! ## The two-scanner interleaving model of `redeemVoucher`

`redeemVoucher` issues two database statements: the `SELECT` that fetches
the voucher, and the `UPDATE ... WHERE id = ?` that commits the redemption
(the precondition checks run synchronously on the fetched row between the
two).  Each statement is individually atomic in SQLite, but nothing stops a
second request from running between them, so a client is modelled as a
two-step program over the shared voucher table. -/

deriving instance DecidableEq for Except

inductive ClientPhase
  | toRead
  | toWrite (fetched : Option Voucher)
  | finished (res : Except RedeemError Unit)
deriving DecidableEq, Repr

/-- One atomic database statement of one redeeming client: first the
`SELECT` by code, then the checks plus the unconditional `UPDATE` by id. -/
def clientStep (vs : List Voucher) (code : String) (now : Nat) (ph : ClientPhase) :
    List Voucher × ClientPhase :=
  match ph with
  | ClientPhase.toRead =>
    (vs, ClientPhase.toWrite (vs.find? (fun v => v.code = code)))
  | ClientPhase.toWrite fetched =>
    match fetched with
    | none => (vs, ClientPhase.finished (Except.error RedeemError.NotFound))
    | some v =>
      if v.status = VoucherStatus.redeemed then
        (vs, ClientPhase.finished (Except.error RedeemError.AlreadyRedeemed))
      else if v.expires_at < now then
        (vs, ClientPhase.finished (Except.error RedeemError.Expired))
      else if v.status ≠ VoucherStatus.active then
        (vs, ClientPhase.finished (Except.error RedeemError.NotActive))
      else
        (vs.map (fun w =>
          if w.id = v.id then
            { w with status := VoucherStatus.redeemed, redeemed_at := some now }
          else w),
         ClientPhase.finished (Except.ok ()))
  | ClientPhase.finished _ => (vs, ph)

/-- Two clients racing on the same code over a shared store. -/
structure RaceState where
  store : List Voucher
  c0 : ClientPhase
  c1 : ClientPhase
deriving DecidableEq, Repr

/-- Run one step of the scheduled client (`false` = client 0). -/
def raceStep (code : String) (now : Nat) (s : RaceState) (who : Bool) : RaceState :=
  if who then
    let (store1, ph1) := clientStep s.store code now s.c1
    { s with store := store1, c1 := ph1 }
  else
    let (store1, ph1) := clientStep s.store code now s.c0
    { s with store := store1, c0 := ph1 }

/-- Run a whole schedule (an interleaving of the two clients' steps). -/
def runRace (code : String) (now : Nat) (s : RaceState) : List Bool → RaceState
  | [] => s
  | who :: rest => runRace code now (raceStep code now s who) rest

/-- The client finished and observed a committed (successful) redemption. -/
def committed : ClientPhase → Bool
  | ClientPhase.finished (Except.ok _) => true
  | _ => false

/-! ## Spec-side definitions (for refinement-style claims) -/

/-- The spec's fixed threshold table, in its ascending order. -/
def loyaltyThresholds : List (String × Nat) :=
  [("Bronze", 0), ("Silver", 5), ("Gold", 15), ("Platinum", 30)]

/-- Spec-side tier lookup, following the spec's words: the highest tier of
the table whose threshold does not exceed the visit count (the last entry of
the ascending table that is still eligible). -/
def specLoyaltyTier (n : Nat) : String :=
  match (loyaltyThresholds.filter (fun p => p.2 ≤ n)).getLast? with
  | some p => p.1
  | none => "Bronze"

/-- Iterated `recordVisit` (N visits in a row for one customer). -/
def iterateVisits (f : Faults) (uid : Nat) (now todayStart : Nat) : Nat → Db → Db
  | 0, db => db
  | n + 1, db => iterateVisits f uid now todayStart n (recordVisit f db uid now todayStart).1

/-! ## General list lemmas used by the preservation arguments -/

/-- Lemma: `find?` commutes with a `map` whose function does not disturb the
predicate (e.g. an SQL `UPDATE` that never touches the looked-up column). -/
theorem find?_map_comm {α : Type} (g : α → α) (p : α → Bool)
    (h : ∀ a, p (g a) = p a) :
    ∀ l : List α, (l.map g).find? p = (l.find? p).map g := by
  intro l
  induction l with
  | nil => rfl
  | cons a t ih =>
    by_cases hpa : p a = true
    · simp [List.find?_cons_of_pos, hpa, h a]
    · have hpa' : p a = false := by
        cases hh : p a
        · rfl
        · exact absurd hh hpa
      have hga : p (g a) = false := by rw [h a, hpa']
      simp only [List.map_cons]
      rw [List.find?_cons_of_neg _ (by simp [hga]),
        List.find?_cons_of_neg _ (by simp [hpa']), ih]

/-- A `find?` hit in a prefix survives appending rows (an SQL `INSERT`). -/
theorem find?_append_some {α : Type} (p : α → Bool) :
    ∀ {l₁ : List α} {a : α}, l₁.find? p = some a → ∀ l₂, (l₁ ++ l₂).find? p = some a := by
  intro l₁
  induction l₁ with
  | nil => intro a h; cases h
  | cons b t ih =>
    intro a h l₂
    by_cases hpb : p b = true
    · rw [List.find?_cons_of_pos _ hpb] at h
      simp only [List.cons_append]
      rw [List.find?_cons_of_pos _ hpb]
      exact h
    · have hpb' : ¬ p b = true := hpb
      rw [List.find?_cons_of_neg _ hpb'] at h
      simp only [List.cons_append]
      rw [List.find?_cons_of_neg _ hpb']
      exact ih h l₂

/-- Over a list whose keys are distinct (a table with a primary key), any
member with the looked-up key *is* the `find?` result. -/
theorem find?_key_unique {α κ : Type} [DecidableEq κ] (key : α → κ) :
    ∀ {l : List α} {a b : α} {k : κ}, (l.map key).Nodup →
      l.find? (fun x => key x = k) = some b → a ∈ l → key a = k → a = b := by
  intro l
  induction l with
  | nil => intro a b k _ h; cases h
  | cons c t ih =>
    intro a b k hnd hf hmem hk
    have hnd' := hnd
    rw [List.map_cons, List.nodup_cons] at hnd'
    by_cases hc : key c = k
    · rw [List.find?_cons_of_pos _ (by simp [hc])] at hf
      have hb : c = b := by injection hf
      rcases List.mem_cons.mp hmem with h1 | h2
      · rw [h1, hb]
      · exfalso
        apply hnd'.1
        rw [hc, ← hk]
        exact List.mem_map_of_mem key h2
    · rw [List.find?_cons_of_neg _ (by simp [hc])] at hf
      rcases List.mem_cons.mp hmem with h1 | h2
      · exfalso; rw [h1] at hk; exact hc hk
      · exact ih hnd'.2 hf h2 hk

/-! ## Frame lemmas: which tables each operation can touch -/

/-- States that `a` differs from `b` at most in the audit log. -/
def sameExceptLog (a b : Db) : Prop :=
  a.vouchers = b.vouchers ∧ a.users = b.users ∧ a.staff = b.staff ∧
  a.codeSupply = b.codeSupply ∧ a.nextVoucherId = b.nextVoucherId

theorem sameExceptLog_refl (a : Db) : sameExceptLog a a :=
  ⟨rfl, rfl, rfl, rfl, rfl⟩

theorem sameExceptLog_trans {a b c : Db} (h1 : sameExceptLog a b)
    (h2 : sameExceptLog b c) : sameExceptLog a c :=
  ⟨h1.1.trans h2.1, h1.2.1.trans h2.2.1, h1.2.2.1.trans h2.2.2.1,
    h1.2.2.2.1.trans h2.2.2.2.1, h1.2.2.2.2.trans h2.2.2.2.2⟩

/-- The audit collaborator writes only the audit log, at any fuel. -/
theorem auditLogF_frame : ∀ (fuel : Nat) (f : Faults) (db : Db) (e : EventData)
    (now todayStart : Nat),
    sameExceptLog (auditLogF fuel f db e now todayStart) db ∧
    sameExceptLog (checkSecurityAlertsF fuel f db e now todayStart) db := by
  intro fuel
  induction fuel with
  | zero =>
    intro f db e now ts
    exact ⟨sameExceptLog_refl db, sameExceptLog_refl db⟩
  | succ n ih =>
    intro f db e now ts
    constructor
    · show sameExceptLog (auditLogF (n + 1) f db e now ts) db
      rw [auditLogF]
      cases h : dbInsertAudit db (toAuditEvent e now) f with
      | error msg => exact sameExceptLog_refl db
      | ok db1 =>
        have hdb1 : sameExceptLog db1 db := by
          unfold dbInsertAudit at h
          by_cases hf : f.insertFails = true
          · rw [if_pos hf] at h; cases h
          · rw [if_neg hf] at h
            injection h with h'
            rw [← h']
            exact ⟨rfl, rfl, rfl, rfl, rfl⟩
        exact sameExceptLog_trans ((ih f db1 e now ts).2) hdb1
    · show sameExceptLog (checkSecurityAlertsF (n + 1) f db e now ts) db
      rw [checkSecurityAlertsF]
      by_cases hq : f.queryFails = true
      · rw [if_pos hq]; exact sameExceptLog_refl db
      · rw [if_neg hq]
        set db1 :=
          if e.action = "login_failed" then
            match e.ip_address with
            | some ip =>
              if 10 ≤ countLoginFailed db.audit_log ip (now - 3600000) then
                auditLogF n f db bruteForceAlert now ts
              else db
            | none => db
          else db with hdb1def
        have hdb1 : sameExceptLog db1 db := by
          rw [hdb1def]
          by_cases ha : e.action = "login_failed"
          · rw [if_pos ha]
            cases hip : e.ip_address with
            | none => exact sameExceptLog_refl db
            | some ip =>
              dsimp only
              by_cases hc : 10 ≤ countLoginFailed db.audit_log ip (now - 3600000)
              · rw [if_pos hc]; exact (ih f db bruteForceAlert now ts).1
              · rw [if_neg hc]; exact sameExceptLog_refl db
          · rw [if_neg ha]; exact sameExceptLog_refl db
        by_cases hb : e.action = "voucher_redeemed"
        · rw [if_pos hb]
          cases hu : e.user_id with
          | none => exact hdb1
          | some uid =>
            dsimp only
            by_cases hc2 : 5 ≤ countRedemptions db1.audit_log uid ts
            · rw [if_pos hc2]
              exact sameExceptLog_trans ((ih f db1 voucherAbuseAlert now ts).1) hdb1
            · rw [if_neg hc2]; exact hdb1
        · rw [if_neg hb]; exact hdb1

/-- Frame lemma for the `auditLog` entry point. -/
theorem auditLog_frame (f : Faults) (db : Db) (e : EventData) (now todayStart : Nat) :
    sameExceptLog (auditLog f db e now todayStart) db :=
  (auditLogF_frame 4 f db e now todayStart).1

/-- How one creation-side operation can change the voucher table: either it
is untouched, or exactly one voucher whose code collides with no existing
row and whose id is the next autoincrement id is appended. -/
def tableEvolve (l : List Voucher) (n : Nat) (l' : List Voucher) (n' : Nat) : Prop :=
  (l' = l ∧ n' = n) ∨
  ∃ nv : Voucher, l.any (fun v => v.code = nv.code) = false ∧ nv.id = n ∧
    l' = l ++ [nv] ∧ n' = n + 1

/-- Lemma: `createVoucher` evolves the voucher table by at most one fresh insert
and touches neither the users nor the staff table. -/
theorem createVoucher_evolve (f : Faults) (db : Db) (d : VoucherDraft) (now ts : Nat) :
    tableEvolve db.vouchers db.nextVoucherId
      (createVoucher f db d now ts).1.vouchers (createVoucher f db d now ts).1.nextVoucherId ∧
    (createVoucher f db d now ts).1.staff = db.staff ∧
    (createVoucher f db d now ts).1.users = db.users := by
  rcases hcs : db.codeSupply with _ | ⟨c, rest⟩ <;>
    simp only [createVoucher, generateVoucherCode, hcs] <;>
    split
  case _ hdup =>
    exact ⟨Or.inl ⟨rfl, rfl⟩, rfl, rfl⟩
  case _ hdup =>
    refine ⟨Or.inr ⟨⟨db.nextVoucherId, d.user_id, d.site_id, "", d.vtype, d.title, d.value,
        VoucherStatus.active, now + d.expires_in_hours * 3600000, none, none⟩,
        ?_, rfl, ?_, ?_⟩, ?_, ?_⟩
    · simpa using hdup
    · exact (auditLog_frame f _ _ now ts).1
    · exact (auditLog_frame f _ _ now ts).2.2.2.2
    · exact (auditLog_frame f _ _ now ts).2.2.1
    · exact (auditLog_frame f _ _ now ts).2.1
  case _ hdup =>
    exact ⟨Or.inl ⟨rfl, rfl⟩, rfl, rfl⟩
  case _ hdup =>
    refine ⟨Or.inr ⟨⟨db.nextVoucherId, d.user_id, d.site_id, c, d.vtype, d.title, d.value,
        VoucherStatus.active, now + d.expires_in_hours * 3600000, none, none⟩,
        ?_, rfl, ?_, ?_⟩, ?_, ?_⟩
    · simpa using hdup
    · exact (auditLog_frame f _ _ now ts).1
    · exact (auditLog_frame f _ _ now ts).2.2.2.2
    · exact (auditLog_frame f _ _ now ts).2.2.1
    · exact (auditLog_frame f _ _ now ts).2.1

/-- Lemma: `createLoyaltyReward` inherits the voucher-table evolution of
`createVoucher`. -/
theorem createLoyaltyReward_evolve (f : Faults) (db : Db) (uid : Nat) (tier : String)
    (now ts : Nat) :
    tableEvolve db.vouchers db.nextVoucherId
      (createLoyaltyReward f db uid tier now ts).1.vouchers
      (createLoyaltyReward f db uid tier now ts).1.nextVoucherId ∧
    (createLoyaltyReward f db uid tier now ts).1.staff = db.staff ∧
    (createLoyaltyReward f db uid tier now ts).1.users = db.users := by
  unfold createLoyaltyReward
  cases hr : rewardFor tier.toLower with
  | none => exact ⟨Or.inl ⟨rfl, rfl⟩, rfl, rfl⟩
  | some r =>
    obtain ⟨title, value⟩ := r
    cases hu : findUser db uid with
    | none => exact ⟨Or.inl ⟨rfl, rfl⟩, rfl, rfl⟩
    | some u => exact createVoucher_evolve f db _ now ts

/-- Lemma: `updateUserLoyalty` evolves the voucher table by at most one fresh
insert and never touches the staff table. -/
theorem updateUserLoyalty_evolve (f : Faults) (db : Db) (uid : Nat) (action : String)
    (now ts : Nat) :
    tableEvolve db.vouchers db.nextVoucherId
      (updateUserLoyalty f db uid action now ts).1.vouchers
      (updateUserLoyalty f db uid action now ts).1.nextVoucherId ∧
    (updateUserLoyalty f db uid action now ts).1.staff = db.staff := by
  unfold updateUserLoyalty
  cases hu : findUser db uid with
  | none => exact ⟨Or.inl ⟨rfl, rfl⟩, rfl⟩
  | some u =>
    dsimp only
    by_cases hact : action = "visit"
    · subst hact
      simp only [reduceIte, and_true]
      by_cases htc : decide (computeTier (u.visit_count + 1) ≠ u.loyalty_tier) = true
      · rw [if_pos htc]
        rcases hcr : createLoyaltyReward f
          { db with users := db.users.map (fun w =>
              if w.id = uid then
                { w with visit_count := u.visit_count + 1,
                         loyalty_tier := computeTier (u.visit_count + 1) }
              else w) } uid (computeTier (u.visit_count + 1)) now ts with ⟨db2, res⟩
        have h := createLoyaltyReward_evolve f
          { db with users := db.users.map (fun w =>
              if w.id = uid then
                { w with visit_count := u.visit_count + 1,
                         loyalty_tier := computeTier (u.visit_count + 1) }
              else w) } uid (computeTier (u.visit_count + 1)) now ts
        rw [hcr] at h
        cases res with
        | error e => exact ⟨h.1, h.2.1⟩
        | ok v => exact ⟨h.1, h.2.1⟩
      · rw [if_neg htc]
        exact ⟨Or.inl ⟨rfl, rfl⟩, rfl⟩
    · simp only [hact]
      rw [if_neg (by simp)]
      exact ⟨Or.inl ⟨rfl, rfl⟩, rfl⟩

/-- Full description of `updateUserLoyalty` on the redemption path: the
visit count is *not* incremented, the tier is recomputed from the unchanged
count, and no reward voucher is ever created (the guard requires
`action === 'visit'`), so no error is possible either. -/
theorem updateUserLoyalty_redemption (f : Faults) (db : Db) (uid : Nat) (now ts : Nat) :
    (findUser db uid = none →
      updateUserLoyalty f db uid "redemption" now ts = (db, Except.ok none)) ∧
    (∀ u, findUser db uid = some u →
      updateUserLoyalty f db uid "redemption" now ts =
        ({ db with users := db.users.map (fun w =>
            if w.id = uid then
              { w with visit_count := u.visit_count,
                       loyalty_tier := computeTier u.visit_count }
            else w) },
         Except.ok (some ⟨u.visit_count, computeTier u.visit_count,
           decide (computeTier u.visit_count ≠ u.loyalty_tier)⟩))) := by
  constructor
  · intro hu
    unfold updateUserLoyalty
    rw [hu]
  · intro u hu
    unfold updateUserLoyalty
    rw [hu]
    simp only [reduceIte, String.reduceEq, and_false, if_false]

/-- Lemma: `redeemVoucher` never touches the staff table, the autoincrement
counter or the code supply, and changes the voucher table at most by the
one status-only `UPDATE ... WHERE id = ?`. -/
theorem redeemVoucher_state (f : Faults) (db : Db) (code : String) (rid : Nat)
    (now ts : Nat) :
    (redeemVoucher f db code rid now ts).1.staff = db.staff ∧
    (redeemVoucher f db code rid now ts).1.nextVoucherId = db.nextVoucherId ∧
    ((redeemVoucher f db code rid now ts).1.vouchers = db.vouchers ∨
      ∃ vid, (redeemVoucher f db code rid now ts).1.vouchers = db.vouchers.map (fun w =>
        if w.id = vid then
          { w with status := VoucherStatus.redeemed,
                   redeemed_at := some now, redeemed_by := some rid }
        else w)) := by
  unfold redeemVoucher
  cases hv : findVoucherByCode db code with
  | none => exact ⟨rfl, rfl, Or.inl rfl⟩
  | some v =>
    dsimp only
    by_cases h1 : v.status = VoucherStatus.redeemed
    · rw [if_pos h1]; exact ⟨rfl, rfl, Or.inl rfl⟩
    · rw [if_neg h1]
      by_cases h2 : v.expires_at < now
      · rw [if_pos h2]; exact ⟨rfl, rfl, Or.inl rfl⟩
      · rw [if_neg h2]
        by_cases h3 : v.status ≠ VoucherStatus.active
        · rw [if_pos h3]; exact ⟨rfl, rfl, Or.inl rfl⟩
        · rw [if_neg h3]
          cases huid : v.user_id with
          | none =>
            dsimp only
            exact ⟨(auditLog_frame f _ _ now ts).2.2.1,
                   (auditLog_frame f _ _ now ts).2.2.2.2,
                   Or.inr ⟨v.id, (auditLog_frame f _ _ now ts).1⟩⟩
          | some uid =>
            dsimp only
            by_cases hty : v.vtype = "loyalty_reward"
            · rw [if_pos hty]
              have hlem := updateUserLoyalty_redemption f
                { db with vouchers := db.vouchers.map (fun w =>
                    if w.id = v.id then
                      { w with status := VoucherStatus.redeemed,
                               redeemed_at := some now,
                               redeemed_by := some rid }
                    else w) } uid now ts
              cases hu2 : findUser db uid with
              | none =>
                rw [hlem.1 hu2]
                dsimp only
                exact ⟨(auditLog_frame f _ _ now ts).2.2.1,
                       (auditLog_frame f _ _ now ts).2.2.2.2,
                       Or.inr ⟨v.id, (auditLog_frame f _ _ now ts).1⟩⟩
              | some u =>
                rw [hlem.2 u hu2]
                dsimp only
                exact ⟨(auditLog_frame f _ _ now ts).2.2.1,
                       (auditLog_frame f _ _ now ts).2.2.2.2,
                       Or.inr ⟨v.id, (auditLog_frame f _ _ now ts).1⟩⟩
            · rw [if_neg hty]
              dsimp only
              exact ⟨(auditLog_frame f _ _ now ts).2.2.1,
                     (auditLog_frame f _ _ now ts).2.2.2.2,
                     Or.inr ⟨v.id, (auditLog_frame f _ _ now ts).1⟩⟩

/-- The committed path of `redeemVoucher`: on an active, unexpired voucher
the call returns the fetched row spread with the new status fields, the
stored row is flipped to `redeemed` by the id-keyed `UPDATE`, no voucher is
created or deleted, and the users table moves only by the (count-preserving)
redemption-path loyalty update. -/
theorem redeemVoucher_commit (f : Faults) (db : Db) (code : String) (rid : Nat)
    (now ts : Nat) (v : Voucher)
    (hv : findVoucherByCode db code = some v)
    (hact : v.status = VoucherStatus.active)
    (hexp : ¬ v.expires_at < now) :
    (redeemVoucher f db code rid now ts).2 =
      Except.ok
        { v with status := VoucherStatus.redeemed,
                 redeemed_at := some now, redeemed_by := some rid } ∧
    (redeemVoucher f db code rid now ts).1.vouchers = db.vouchers.map (fun w =>
      if w.id = v.id then
        { w with status := VoucherStatus.redeemed,
                 redeemed_at := some now, redeemed_by := some rid }
      else w) ∧
    ((v.user_id = none ∨ v.vtype ≠ "loyalty_reward") →
      (redeemVoucher f db code rid now ts).1.users = db.users) ∧
    (∀ uid u, v.user_id = some uid → v.vtype = "loyalty_reward" →
      findUser db uid = some u →
      (redeemVoucher f db code rid now ts).1.users = db.users.map (fun w =>
        if w.id = uid then
          { w with visit_count := u.visit_count,
                   loyalty_tier := computeTier u.visit_count }
        else w)) := by
  unfold redeemVoucher
  rw [hv]
  dsimp only
  rw [if_neg (by simp [hact]), if_neg hexp, if_neg (by simp [hact])]
  cases huid : v.user_id with
  | none =>
    dsimp only
    exact ⟨rfl, (auditLog_frame f _ _ now ts).1, fun _ => (auditLog_frame f _ _ now ts).2.1,
      fun uid u huid2 _ _ => Option.noConfusion huid2⟩
  | some uid =>
    dsimp only
    by_cases hty : v.vtype = "loyalty_reward"
    · rw [if_pos hty]
      have hlem := updateUserLoyalty_redemption f
        { db with vouchers := db.vouchers.map (fun w =>
            if w.id = v.id then
              { w with status := VoucherStatus.redeemed,
                       redeemed_at := some now,
                       redeemed_by := some rid }
            else w) } uid now ts
      cases hu2 : findUser db uid with
      | none =>
        rw [hlem.1 hu2]
        dsimp only
        refine ⟨rfl, (auditLog_frame f _ _ now ts).1, ?_, ?_⟩
        · intro hcase
          rcases hcase with hc | hc
          · exact Option.noConfusion hc
          · exact absurd hty hc
        · intro uid2 u huid2 _ hu3
          injection huid2 with huid2
          rw [← huid2] at hu3
          rw [hu3] at hu2
          exact Option.noConfusion hu2
      | some u =>
        rw [hlem.2 u hu2]
        dsimp only
        refine ⟨rfl, (auditLog_frame f _ _ now ts).1, ?_, ?_⟩
        · intro hcase
          rcases hcase with hc | hc
          · exact Option.noConfusion hc
          · exact absurd hty hc
        · intro uid2 u2 huid2 _ hu3
          injection huid2 with huid2
          rw [← huid2] at hu3
          rw [hu2] at hu3
          injection hu3 with hu3
          rw [← huid2, ← hu3]
          exact (auditLog_frame f _ _ now ts).2.1
    · rw [if_neg hty]
      dsimp only
      exact ⟨rfl, (auditLog_frame f _ _ now ts).1,
        fun _ => (auditLog_frame f _ _ now ts).2.1,
        fun uid2 u huid2 hty2 _ => absurd hty2 hty⟩

/-- Lemma: `createStaffWiFiVoucher` evolves the voucher table exactly as its inner
`createVoucher` does. -/
theorem createStaffWiFiVoucher_evolve (f : Faults) (db : Db) (sid : Nat)
    (today : String) (now ts : Nat) :
    tableEvolve db.vouchers db.nextVoucherId
      (createStaffWiFiVoucher f db sid today now ts).1.vouchers
      (createStaffWiFiVoucher f db sid today now ts).1.nextVoucherId := by
  unfold createStaffWiFiVoucher
  cases hs : findStaffById db sid with
  | none => exact Or.inl ⟨rfl, rfl⟩
  | some st =>
    dsimp only
    split
    · exact Or.inl ⟨rfl, rfl⟩
    · rcases hcv : createVoucher f db
        ⟨none, st.site_id, "staff_wifi", "Staff WiFi Access", 0, 24, "staff", some sid⟩
        now ts with ⟨db1, res⟩
      have h := createVoucher_evolve f db
        ⟨none, st.site_id, "staff_wifi", "Staff WiFi Access", 0, 24, "staff", some sid⟩
        now ts
      rw [hcv] at h
      cases res with
      | error e => exact h.1
      | ok v => exact h.1

/-- The override route evolves the voucher table exactly as the staff
voucher creation it performs. -/
theorem overrideStaffWiFi_evolve (f : Faults) (db : Db) (em : String) (mid : Nat)
    (today : String) (now ts : Nat) :
    tableEvolve db.vouchers db.nextVoucherId
      (overrideStaffWiFi f db em mid today now ts).1.vouchers
      (overrideStaffWiFi f db em mid today now ts).1.nextVoucherId := by
  unfold overrideStaffWiFi
  cases hs : findStaffByEmail db em with
  | none => exact Or.inl ⟨rfl, rfl⟩
  | some st =>
    dsimp only
    rcases hcs : createStaffWiFiVoucher f
      { db with staff := db.staff.map (fun s =>
          if s.id = st.id then { s with daily_voucher_used := false } else s) }
      st.id today now ts with ⟨db2, res⟩
    have h := createStaffWiFiVoucher_evolve f
      { db with staff := db.staff.map (fun s =>
          if s.id = st.id then { s with daily_voucher_used := false } else s) }
      st.id today now ts
    rw [hcs] at h
    cases res with
    | error e => exact h
    | ok v =>
      have hf := auditLog_frame f db2
        ⟨"staff", some mid, "staff_wifi_override", some "vouchers", none, none⟩ now ts
      rw [hf.1, hf.2.2.2.2]
      exact h

/-- Lemma: `setVoucherStatus` either leaves the state unchanged (invalid target
status, missing voucher, or terminal `redeemed` voucher) or performs the
status-only `UPDATE` on a voucher that was not redeemed. -/
theorem setVoucherStatus_state (db : Db) (vid : Nat) (ns : VoucherStatus) :
    setVoucherStatus db vid ns = db ∨
    (ns ≠ VoucherStatus.redeemed ∧ ∃ v, db.vouchers.find? (fun x => x.id = vid) = some v ∧
      v.status ≠ VoucherStatus.redeemed ∧
      setVoucherStatus db vid ns = { db with vouchers := db.vouchers.map (fun w =>
        if w.id = vid then { w with status := ns } else w) }) := by
  unfold setVoucherStatus
  by_cases h1 : ns = VoucherStatus.redeemed
  · rw [if_pos h1]; exact Or.inl rfl
  · rw [if_neg h1]
    cases hv : db.vouchers.find? (fun x => x.id = vid) with
    | none => exact Or.inl rfl
    | some v =>
      dsimp only
      by_cases h2 : v.status = VoucherStatus.redeemed
      · rw [if_pos h2]; exact Or.inl rfl
      · rw [if_neg h2]
        exact Or.inr ⟨h1, v, rfl, h2, rfl⟩

/-! ## Persistence of the terminal `redeemed` status -/

/-- An `INSERT` never un-redeems an existing voucher. -/
theorem redeemedIn_append (l l2 : List Voucher) (code : String) :
    redeemedIn l code → redeemedIn (l ++ l2) code := by
  rintro ⟨v, hv, hs⟩
  exact ⟨v, find?_append_some _ hv l2, hs⟩

/-- A row-wise `UPDATE` that keeps codes and can only move statuses *to*
`redeemed` never un-redeems a voucher. -/
theorem redeemedIn_map (l : List Voucher) (code : String) (g : Voucher → Voucher)
    (hcode : ∀ w, (g w).code = w.code)
    (hmono : ∀ w, w.status = VoucherStatus.redeemed → (g w).status = VoucherStatus.redeemed) :
    redeemedIn l code → redeemedIn (l.map g) code := by
  rintro ⟨v, hv, hs⟩
  refine ⟨g v, ?_, hmono v hs⟩
  rw [find?_map_comm g _ (fun a => by rw [hcode a]) l, hv]
  rfl

/-- A creation-side table evolution never un-redeems a voucher. -/
theorem redeemedIn_evolve {l l' : List Voucher} {n n' : Nat} (code : String)
    (h : tableEvolve l n l' n') : redeemedIn l code → redeemedIn l' code := by
  rcases h with ⟨h1, _⟩ | ⟨nv, _, _, h1, _⟩
  · rw [h1]; exact id
  · rw [h1]; exact redeemedIn_append l [nv] code

/-- A creation-side table evolution preserves well-formedness. -/
theorem WFl_evolve {l l' : List Voucher} {n n' : Nat}
    (h : tableEvolve l n l' n') : WFl l n → WFl l' n' := by
  rcases h with ⟨h1, h2⟩ | ⟨nv, _, hid, h1, h2⟩ <;> rintro ⟨hnd, hbd⟩
  · rw [h1, h2]; exact ⟨hnd, hbd⟩
  · rw [h1, h2]
    constructor
    · rw [List.map_append, List.nodup_append]
      refine ⟨hnd, by simp, ?_⟩
      intro a ha hb
      simp only [List.map_cons, List.map_nil, List.mem_singleton] at hb
      rcases List.mem_map.mp ha with ⟨w, hw, hwid⟩
      have hlt := hbd w hw
      rw [← hwid] at hb
      rw [hb, hid] at hlt
      exact absurd hlt (Nat.lt_irrefl n)
    · intro v hv
      rcases List.mem_append.mp hv with h | h
      · exact Nat.lt_succ_of_lt (hbd v h)
      · rw [List.mem_singleton.mp h, hid]
        exact Nat.lt_succ_self n

/-- An id- and code-preserving row-wise `UPDATE` preserves
well-formedness. -/
theorem WFl_map (l : List Voucher) (n : Nat) (g : Voucher → Voucher)
    (hid : ∀ w, (g w).id = w.id) : WFl l n → WFl (l.map g) n := by
  rintro ⟨hnd, hbd⟩
  constructor
  · rw [List.map_map]
    have hfun : ((fun v : Voucher => v.id) ∘ g) = fun v : Voucher => v.id :=
      funext (fun w => hid w)
    rw [hfun]
    exact hnd
  · intro v hv
    rcases List.mem_map.mp hv with ⟨w, hw, hwv⟩
    rw [← hwv, hid w]
    exact hbd w hw

/-- Every modelled API operation preserves both well-formedness and the
terminal `redeemed` status of any voucher. -/
theorem applyOp_preserves (f : Faults) (db : Db) (op : Op) (code : String)
    (hwf : WF db) (hred : isRedeemed db code) :
    WF (applyOp f db op) ∧ isRedeemed (applyOp f db op) code := by
  cases op with
  | redeem c r n t =>
    have hs := redeemVoucher_state f db c r n t
    constructor
    · show WFl (redeemVoucher f db c r n t).1.vouchers (redeemVoucher f db c r n t).1.nextVoucherId
      rw [hs.2.1]
      rcases hs.2.2 with h | ⟨vid, h⟩
      · rw [h]; exact hwf
      · rw [h]
        exact WFl_map _ _ _ (fun w => by by_cases hw : w.id = vid <;> simp [hw]) hwf
    · show redeemedIn (redeemVoucher f db c r n t).1.vouchers code
      rcases hs.2.2 with h | ⟨vid, h⟩
      · rw [h]; exact hred
      · rw [h]
        exact redeemedIn_map _ _ _
          (fun w => by by_cases hw : w.id = vid <;> simp [hw])
          (fun w hw2 => by by_cases hw : w.id = vid <;> simp [hw, hw2]) hred
  | create d n t =>
    have h := (createVoucher_evolve f db d n t).1
    exact ⟨WFl_evolve h hwf, redeemedIn_evolve code h hred⟩
  | staffWifi sid today n t =>
    have h := createStaffWiFiVoucher_evolve f db sid today n t
    exact ⟨WFl_evolve h hwf, redeemedIn_evolve code h hred⟩
  | overrideStaff em mid today n t =>
    have h := overrideStaffWiFi_evolve f db em mid today n t
    exact ⟨WFl_evolve h hwf, redeemedIn_evolve code h hred⟩
  | visit uid n t =>
    have h := (updateUserLoyalty_evolve f db uid "visit" n t).1
    exact ⟨WFl_evolve h hwf, redeemedIn_evolve code h hred⟩
  | audit e n t =>
    have h := auditLog_frame f db e n t
    constructor
    · show WFl (auditLog f db e n t).vouchers (auditLog f db e n t).nextVoucherId
      rw [h.1, h.2.2.2.2]
      exact hwf
    · show redeemedIn (auditLog f db e n t).vouchers code
      rw [h.1]
      exact hred
  | setStatus vid ns =>
    rcases setVoucherStatus_state db vid ns with h | ⟨hns, v, hfind, hvs, h⟩
    · show WF (setVoucherStatus db vid ns) ∧ isRedeemed (setVoucherStatus db vid ns) code
      rw [h]
      exact ⟨hwf, hred⟩
    · constructor
      · show WFl (setVoucherStatus db vid ns).vouchers (setVoucherStatus db vid ns).nextVoucherId
        rw [h]
        exact WFl_map _ _ _ (fun w => by by_cases hw : w.id = vid <;> simp [hw]) hwf
      · show redeemedIn (setVoucherStatus db vid ns).vouchers code
        rw [h]
        obtain ⟨vr, hvr, hvrs⟩ := hred
        have hne : ¬ vr.id = vid := by
          intro hEq
          have hmem : vr ∈ db.vouchers := List.mem_of_find?_eq_some hvr
          have : vr = v := find?_key_unique (fun x => x.id) hwf.1 hfind hmem hEq
          rw [this] at hvrs
          exact hvs hvrs
        refine ⟨vr, ?_, hvrs⟩
        have hcomm := find?_map_comm
          (fun w => if w.id = vid then { w with status := ns } else w)
          (fun x => x.code = code)
          (fun a => by by_cases hw : a.id = vid <;> simp [hw]) db.vouchers
        rw [hcomm, hvr]
        simp [hne]

/-- Preservation of the `redeemed` status over any operation sequence. -/
theorem applyOps_preserves (f : Faults) (ops : List Op) :
    ∀ (db : Db) (code : String), WF db → isRedeemed db code →
      WF (applyOps f db ops) ∧ isRedeemed (applyOps f db ops) code := by
  induction ops with
  | nil => intro db code hwf hred; exact ⟨hwf, hred⟩
  | cons op rest ih =>
    intro db code hwf hred
    have h := applyOp_preserves f db op code hwf hred
    exact ih (applyOp f db op) code h.1 h.2

/-- A successful `redeemVoucher` call found a voucher that was active and
unexpired. -/
theorem redeemVoucher_ok_inv (f : Faults) (db : Db) (code : String) (rid now ts : Nat)
    (vr : Voucher) (hok : (redeemVoucher f db code rid now ts).2 = Except.ok vr) :
    ∃ v, findVoucherByCode db code = some v ∧ v.status = VoucherStatus.active ∧
      ¬ v.expires_at < now := by
  cases hv : findVoucherByCode db code with
  | none =>
    exfalso
    unfold redeemVoucher at hok
    rw [hv] at hok
    exact Except.noConfusion hok
  | some v =>
    by_cases h1 : v.status = VoucherStatus.redeemed
    · exfalso
      unfold redeemVoucher at hok
      rw [hv] at hok
      dsimp only at hok
      rw [if_pos h1] at hok
      exact Except.noConfusion hok
    · by_cases h2 : v.expires_at < now
      · exfalso
        unfold redeemVoucher at hok
        rw [hv] at hok
        dsimp only at hok
        rw [if_neg h1, if_pos h2] at hok
        exact Except.noConfusion hok
      · by_cases h3 : v.status ≠ VoucherStatus.active
        · exfalso
          unfold redeemVoucher at hok
          rw [hv] at hok
          dsimp only at hok
          rw [if_neg h1, if_neg h2, if_pos h3] at hok
          exact Except.noConfusion hok
        · exact ⟨v, rfl, not_not.mp h3, h2⟩

/-- After the status `UPDATE` keyed on the fetched voucher's id, the voucher
found by that code is redeemed. -/
theorem redeemedIn_after_update (l : List Voucher) (code : String) (v : Voucher)
    (hv : l.find? (fun x => x.code = code) = some v) (now rid : Nat) :
    redeemedIn (l.map (fun w =>
      if w.id = v.id then
        { w with status := VoucherStatus.redeemed,
                 redeemed_at := some now, redeemed_by := some rid }
      else w)) code := by
  have hcomm := find?_map_comm
    (fun w => if w.id = v.id then
        { w with status := VoucherStatus.redeemed,
                 redeemed_at := some now, redeemed_by := some rid }
      else w)
    (fun x => x.code = code)
    (fun a => by by_cases hw : a.id = v.id <;> simp [hw]) l
  refine ⟨{ v with status := VoucherStatus.redeemed,
                   redeemed_at := some now, redeemed_by := some rid }, ?_, rfl⟩
  rw [hcomm, hv]
  simp

/-- A successful redemption leaves the voucher redeemed in the store. -/
theorem redeemVoucher_ok_isRedeemed (f : Faults) (db : Db) (code : String)
    (rid now ts : Nat) (vr : Voucher)
    (hok : (redeemVoucher f db code rid now ts).2 = Except.ok vr) :
    isRedeemed (redeemVoucher f db code rid now ts).1 code := by
  obtain ⟨v, hv, hact, hexp⟩ := redeemVoucher_ok_inv f db code rid now ts vr hok
  have hc := redeemVoucher_commit f db code rid now ts v hv hact hexp
  show redeemedIn (redeemVoucher f db code rid now ts).1.vouchers code
  rw [hc.2.1]
  exact redeemedIn_after_update db.vouchers code v hv now rid

/-- A redeem call on an already-redeemed code fails with
`AlreadyRedeemed`, leaving the state unchanged. -/
theorem redeemVoucher_already (f : Faults) (db : Db) (code : String)
    (rid now ts : Nat) (hred : isRedeemed db code) :
    redeemVoucher f db code rid now ts = (db, Except.error RedeemError.AlreadyRedeemed) := by
  obtain ⟨v, hv, hs⟩ := hred
  unfold redeemVoucher
  rw [show findVoucherByCode db code = some v from hv]
  dsimp only
  rw [if_pos hs]

/-! ## Concrete fixtures used by witnesses and counterexamples -/

/-- An active, unexpired `loyalty_reward` voucher owned by customer 7. -/
def vActive : Voucher :=
  ⟨1, some 7, some 1, "LO1", "loyalty_reward", "Reward", 500,
    VoucherStatus.active, 100, none, none⟩

/-- A customer one visit away from the Silver threshold. -/
def uBronze4 : User := ⟨7, some 1, 4, "Bronze"⟩

/-- A small well-formed store with one voucher and one customer. -/
def dbFix : Db := ⟨[vActive], [uBronze4], [], [], ["NEW1", "NEW2"], 2⟩

/-! ## C1 -/

/-- Claim C1: for every voucher code, redemption succeeds at most once —
once a redeem call with that code has succeeded, every subsequent redeem
call with the same code (after any sequence of further API operations, under
any fault pattern) returns `AlreadyRedeemed` and never succeeds again. -/
theorem redeem_succeeds_at_most_once (f : Faults) (db : Db) (code : String)
    (rid now ts : Nat) (hwf : WF db)
    (hok : ∃ vr, (redeemVoucher f db code rid now ts).2 = Except.ok vr) :
    ∀ (ops : List Op) (f2 : Faults) (rid2 now2 ts2 : Nat),
      redeemVoucher f2 (applyOps f2 (redeemVoucher f db code rid now ts).1 ops)
          code rid2 now2 ts2 =
        (applyOps f2 (redeemVoucher f db code rid now ts).1 ops,
         Except.error RedeemError.AlreadyRedeemed) := by
  obtain ⟨vr, hok⟩ := hok
  intro ops f2 rid2 now2 ts2
  have hred1 : isRedeemed (redeemVoucher f db code rid now ts).1 code :=
    redeemVoucher_ok_isRedeemed f db code rid now ts vr hok
  have hs := redeemVoucher_state f db code rid now ts
  have hwf1 : WF (redeemVoucher f db code rid now ts).1 := by
    show WFl _ _
    rw [hs.2.1]
    rcases hs.2.2 with h | ⟨vid, h⟩
    · rw [h]; exact hwf
    · rw [h]
      exact WFl_map _ _ _ (fun w => by by_cases hw : w.id = vid <;> simp [hw]) hwf
  have h2 := applyOps_preserves f2 ops (redeemVoucher f db code rid now ts).1 code hwf1 hred1
  exact redeemVoucher_already f2 _ code rid2 now2 ts2 h2.2

/-- Concrete instance of C1: after a successful redemption of `LO1` and a
further (refused) admin attempt to reactivate the voucher, a second redeem
still fails with `AlreadyRedeemed`. -/
theorem redeem_succeeds_at_most_once_witness :
    redeemVoucher noFaults
        (applyOps noFaults (redeemVoucher noFaults dbFix "LO1" 3 50 0).1
          [Op.setStatus 1 VoucherStatus.active]) "LO1" 4 60 0 =
      (applyOps noFaults (redeemVoucher noFaults dbFix "LO1" 3 50 0).1
          [Op.setStatus 1 VoucherStatus.active],
       Except.error RedeemError.AlreadyRedeemed) :=
  redeem_succeeds_at_most_once noFaults dbFix "LO1" 3 50 0 (by decide)
    ⟨_, rfl⟩ [Op.setStatus 1 VoucherStatus.active] noFaults 4 60 0

/-! ## C2 -/

/-- Claim C2 is violated by the code: `redeemVoucher`'s `UPDATE` is keyed
only on `id` and carries no `status = 'active'` condition, so in the
interleaving where both clients run their `SELECT` before either runs its
checks-plus-`UPDATE` (schedule read₀, read₁, write₀, write₁ on the active,
unexpired voucher `LO1`), *both* callers observe a committed redemption —
contradicting "exactly one returns a committed voucher and the other
`AlreadyRedeemed`; no interleaving commits both". -/
theorem redeem_race_commits_both :
    committed (runRace "LO1" 50 ⟨[vActive], ClientPhase.toRead, ClientPhase.toRead⟩
      [false, true, false, true]).c0 = true ∧
    committed (runRace "LO1" 50 ⟨[vActive], ClientPhase.toRead, ClientPhase.toRead⟩
      [false, true, false, true]).c1 = true ∧
    vActive.status = VoucherStatus.active ∧ ¬ vActive.expires_at < 50 := by
  decide

/-! ## C9 -/

/-- Claim C9: `auditLog` never raises to its caller — for every event and
every combination of store-insert and anomaly-query failures, the call
returns normally (the body's error is caught, logged to the fallback
channel, and the original state is kept). -/
theorem auditLog_never_raises (f : Faults) (db : Db) (e : EventData) (now ts : Nat) :
    ∃ db', auditLogExc f db e now ts = Except.ok db' := by
  unfold auditLogExc
  cases h : auditLogBody f db e now ts with
  | ok db1 => exact ⟨db1, rfl⟩
  | error msg => exact ⟨db, rfl⟩

/-! ## C10 -/

/-- Claim C10: when `createStaffWiFiVoucher` fails — for any reason — the
staff table (hence `daily_voucher_used` and `last_voucher_date`) is left
unchanged: the daily flag is written only after the voucher row was
successfully created. -/
theorem staff_flag_unchanged_on_failure (f : Faults) (db : Db) (sid : Nat)
    (today : String) (now ts : Nat) (db' : Db) (e : OpError)
    (herr : createStaffWiFiVoucher f db sid today now ts = (db', Except.error e)) :
    db'.staff = db.staff := by
  unfold createStaffWiFiVoucher at herr
  cases hs : findStaffById db sid with
  | none =>
    rw [hs] at herr
    injection herr with h1 h2
    rw [← h1]
  | some st =>
    rw [hs] at herr
    dsimp only at herr
    by_cases hg : st.last_voucher_date = some today ∧ st.daily_voucher_used = true
    · rw [if_pos hg] at herr
      injection herr with h1 h2
      rw [← h1]
    · rw [if_neg hg] at herr
      rcases hcv : createVoucher f db
        ⟨none, st.site_id, "staff_wifi", "Staff WiFi Access", 0, 24, "staff", some sid⟩
        now ts with ⟨db1, res⟩
      have hev := (createVoucher_evolve f db
        ⟨none, st.site_id, "staff_wifi", "Staff WiFi Access", 0, 24, "staff", some sid⟩
        now ts).2.1
      rw [hcv] at herr hev
      cases res with
      | error e2 =>
        injection herr with h1 h2
        rw [← h1]
        exact hev
      | ok v =>
        injection herr with h1 h2
        exact Except.noConfusion h2

/-- A staff member whose daily voucher is already used today. -/
def stUsed : StaffMember := ⟨11, some 1, "staff@site", true, some "2026-01-01"⟩

/-- Store in which staff 11 has consumed today's allowance. -/
def dbStaffUsed : Db := ⟨[], [], [stUsed], [], ["SC1"], 1⟩

/-- Concrete instance of C10: a `DailyLimitReached` failure leaves the
staff table untouched. -/
theorem staff_flag_unchanged_on_failure_witness :
    (createStaffWiFiVoucher noFaults dbStaffUsed 11 "2026-01-01" 5 0).1.staff =
      dbStaffUsed.staff :=
  staff_flag_unchanged_on_failure noFaults dbStaffUsed 11 "2026-01-01" 5 0
    (createStaffWiFiVoucher noFaults dbStaffUsed 11 "2026-01-01" 5 0).1
    OpError.DailyLimitReached (by decide)

/-! ## C7 -/

/-- Amended claim C7: when the generated code collides with an existing
voucher's code, `createVoucher` fails with the duplicate-code condition (the
`UNIQUE` constraint), the existing voucher table is untouched, and exactly
one code is drawn from the generator — the failure propagates immediately,
with no retry loop and no `CodeSpaceExhausted` condition in the code. -/
theorem createVoucher_duplicate_no_retry (f : Faults) (db : Db) (d : VoucherDraft)
    (now ts : Nat) (c : String) (rest : List String)
    (hsup : db.codeSupply = c :: rest)
    (hdup : db.vouchers.any (fun v => v.code = c) = true) :
    createVoucher f db d now ts =
      ({ db with codeSupply := rest }, Except.error OpError.DuplicateCode) := by
  unfold createVoucher generateVoucherCode
  rw [hsup]
  dsimp only
  rw [if_pos hdup]

/-- A voucher whose code the next generator draw collides with. -/
def vDup : Voucher :=
  ⟨1, none, some 1, "LODUP", "other", "T", 0, VoucherStatus.active, 100, none, none⟩

/-- Store whose pending code stream starts with a colliding code and then a
fresh one. -/
def dbDup : Db := ⟨[vDup], [], [], [], ["LODUP", "LOFRESH"], 2⟩

/-- Counterexample to claim C7 as stated: with a fresh code (`LOFRESH`)
available as the very next generator draw, the call still surfaces the
duplicate-code failure after consuming exactly one code — no retry is
attempted (the fresh code is still unconsumed) and no `CodeSpaceExhausted`
condition exists, while the existing voucher is not overwritten. -/
theorem createVoucher_no_retry_counterexample :
    (createVoucher noFaults dbDup ⟨none, some 1, "other", "T", 0, 1, "system", none⟩ 0 0).2 =
      Except.error OpError.DuplicateCode ∧
    (createVoucher noFaults dbDup
      ⟨none, some 1, "other", "T", 0, 1, "system", none⟩ 0 0).1.codeSupply = ["LOFRESH"] ∧
    (createVoucher noFaults dbDup
      ⟨none, some 1, "other", "T", 0, 1, "system", none⟩ 0 0).1.vouchers = dbDup.vouchers := by
  decide

/-- Concrete instance of the amended C7. -/
theorem createVoucher_duplicate_no_retry_witness :
    createVoucher noFaults dbDup ⟨none, some 1, "other", "T", 0, 1, "system", none⟩ 0 0 =
      ({ dbDup with codeSupply := ["LOFRESH"] }, Except.error OpError.DuplicateCode) :=
  createVoucher_duplicate_no_retry noFaults dbDup
    ⟨none, some 1, "other", "T", 0, 1, "system", none⟩ 0 0 "LODUP" ["LOFRESH"]
    rfl (by decide)

/-! ## C8 -/

/-- The anomaly rules ignore `security_alert` events themselves (neither
counting rule matches that action), which is what bounds the
`auditLog`/`checkSecurityAlerts` re-entry. -/
theorem checkSecurityAlertsF_alert (fuel : Nat) (f : Faults) (db : Db)
    (e : EventData) (now ts : Nat) (ha : e.action = "security_alert") :
    checkSecurityAlertsF fuel f db e now ts = db := by
  cases fuel with
  | zero => rfl
  | succ n =>
    rw [checkSecurityAlertsF]
    simp only [ha, String.reduceEq, if_false]
    by_cases hq : f.queryFails = true <;> simp [hq]

/-- An insert against a non-failing store appends the row. -/
theorem dbInsertAudit_ok (f : Faults) (hf1 : f.insertFails = false)
    (db : Db) (ev : AuditEvent) :
    dbInsertAudit db ev f = Except.ok { db with audit_log := db.audit_log ++ [ev] } := by
  unfold dbInsertAudit
  rw [hf1]
  rfl

/-- Characterization of the brute-force rule the code actually implements:
on a non-failing store, a `login_failed` event appends exactly one
`security_alert`/`brute_force_attempt` event iff `countLoginFailed` —
which, through the mixed-format TEXT comparison, counts the origin's
failures dated strictly *after the calendar date* of `now − 60min`, the
recorded event included — has reached 10; and it does so on *every* such
event (the rule re-fires), while below the threshold nothing is appended. -/
theorem brute_force_alert_refires (f : Faults) (db : Db) (e : EventData)
    (now ts : Nat) (ip : String)
    (hf1 : f.insertFails = false) (hf2 : f.queryFails = false)
    (ha : e.action = "login_failed") (hip : e.ip_address = some ip) :
    (10 ≤ countLoginFailed (db.audit_log ++ [toAuditEvent e now]) ip (now - 3600000) →
      (auditLog f db e now ts).audit_log =
        db.audit_log ++ [toAuditEvent e now, toAuditEvent bruteForceAlert now]) ∧
    (¬ 10 ≤ countLoginFailed (db.audit_log ++ [toAuditEvent e now]) ip (now - 3600000) →
      (auditLog f db e now ts).audit_log = db.audit_log ++ [toAuditEvent e now]) := by
  have h1 : auditLog f db e now ts =
      checkSecurityAlertsF 3 f { db with audit_log := db.audit_log ++ [toAuditEvent e now] }
        e now ts := by
    show auditLogF (3 + 1) f db e now ts = _
    rw [auditLogF, dbInsertAudit_ok f hf1]
  have h2 : ∀ d : Db, checkSecurityAlertsF 3 f d e now ts =
      (if 10 ≤ countLoginFailed d.audit_log ip (now - 3600000) then
        auditLogF 2 f d bruteForceAlert now ts else d) := by
    intro d
    show checkSecurityAlertsF (2 + 1) f d e now ts = _
    rw [checkSecurityAlertsF]
    simp only [hf2, ha, hip, String.reduceEq, if_false, if_true, Bool.false_eq_true]
  have h3 : ∀ d : Db, auditLogF 2 f d bruteForceAlert now ts =
      { d with audit_log := d.audit_log ++ [toAuditEvent bruteForceAlert now] } := by
    intro d
    show auditLogF (1 + 1) f d bruteForceAlert now ts = _
    rw [auditLogF, dbInsertAudit_ok f hf1]
    exact checkSecurityAlertsF_alert 1 f _ bruteForceAlert now ts rfl
  constructor <;> intro hcnt
  · rw [h1, h2, if_pos hcnt, h3]
    simp
  · rw [h1, h2, if_neg hcnt]

/-- A failed-login audit row from the spec's example origin, `i` minutes
into UTC day 1. -/
def lfEvent (i : Nat) : AuditEvent :=
  ⟨"customer", none, "login_failed", none, none, some "203.0.113.5",
    86400000 + i * 60000⟩

/-- The brute-force alert row emitted at a 10th failure. -/
def alertStored : AuditEvent :=
  ⟨"system", none, "security_alert", some "authentication",
    some "brute_force_attempt", none, 86400000 + 10 * 60000⟩

/-- A log holding 10 failures from `203.0.113.5` in the first minutes of
UTC day 1 and the alert they produced. -/
def dbBrute : Db :=
  ⟨[], [], [], (List.range 10).map lfEvent ++ [alertStored], [], 1⟩

/-- A further failure from the same origin. -/
def eFailure : EventData :=
  ⟨"customer", none, "login_failed", none, none, some "203.0.113.5"⟩

/-- In the one regime where the broken window does catch rows — the first
hour of a UTC day, when `now − 60min` still carries the previous calendar
date — the rule not only fires but re-fires: the log already holds the
alert of the 10th failure, and recording an 11th failure at 00:11 appends a
second `security_alert`. -/
theorem brute_force_first_hour_refires :
    (dbBrute.audit_log.filter (fun ev => ev.action = "security_alert")).length = 1 ∧
    ((auditLog noFaults dbBrute eFailure 87060000 86400000).audit_log.filter
      (fun ev => ev.action = "security_alert")).length = 2 := by
  decide

/-- A failed-login audit row from the same origin, `i` minutes after 12:00
UTC of day 1. -/
def lfMidday (i : Nat) : AuditEvent :=
  ⟨"customer", none, "login_failed", none, none, some "203.0.113.5",
    129600000 + i * 60000⟩

/-- A log holding 9 failures from `203.0.113.5` at 12:00–12:08 UTC. -/
def dbMidday : Db :=
  ⟨[], [], [], (List.range 9).map lfMidday, [], 1⟩

/-- Claim C8 states the intended behavior, which the code does not
implement: recording the 10th `login_failed` event from `203.0.113.5` at
12:09 UTC — all ten failures lying within the trailing 60 minutes, as the
first conjunct checks against the true time window — emits *no*
`security_alert` at all: the anomaly SQL compares the SQLite-format
`created_at` text against an ISO cutoff, which excludes every row of the
cutoff's own calendar date, so the mid-day count is 0 and only the
just-recorded event is appended. -/
theorem brute_force_midday_no_alert :
    ((dbMidday.audit_log ++ [toAuditEvent eFailure 130140000]).filter (fun ev =>
        ev.action = "login_failed" ∧ ev.ip_address = some "203.0.113.5" ∧
        130140000 - 3600000 < ev.created_at)).length = 10 ∧
    (auditLog noFaults dbMidday eFailure 130140000 129600000).audit_log =
      dbMidday.audit_log ++ [toAuditEvent eFailure 130140000] := by
  decide

/-! ## The redemption result as a pure function of the lookup -/

/-- The value returned by `redeemVoucher` is exactly the source's ordered
case analysis on the fetched row — in particular no other error kind (and no
propagated internal error) is reachable, because the redemption-path loyalty
update never takes the reward-creation branch. -/
theorem redeemVoucher_result (f : Faults) (db : Db) (code : String) (rid now ts : Nat) :
    (redeemVoucher f db code rid now ts).2 =
      (match findVoucherByCode db code with
       | none => Except.error RedeemError.NotFound
       | some v =>
         if v.status = VoucherStatus.redeemed then Except.error RedeemError.AlreadyRedeemed
         else if v.expires_at < now then Except.error RedeemError.Expired
         else if v.status ≠ VoucherStatus.active then Except.error RedeemError.NotActive
         else Except.ok { v with status := VoucherStatus.redeemed,
                                 redeemed_at := some now, redeemed_by := some rid }) := by
  cases hv : findVoucherByCode db code with
  | none =>
    unfold redeemVoucher
    rw [hv]
  | some v =>
    by_cases h1 : v.status = VoucherStatus.redeemed
    · unfold redeemVoucher
      rw [hv]
      dsimp only
      rw [if_pos h1, if_pos h1]
    · by_cases h2 : v.expires_at < now
      · unfold redeemVoucher
        rw [hv]
        dsimp only
        rw [if_neg h1, if_neg h1, if_pos h2, if_pos h2]
      · by_cases h3 : v.status ≠ VoucherStatus.active
        · unfold redeemVoucher
          rw [hv]
          dsimp only
          rw [if_neg h1, if_neg h1, if_neg h2, if_neg h2, if_pos h3, if_pos h3]
        · have hc := redeemVoucher_commit f db code rid now ts v hv (not_not.mp h3) h2
          rw [hc.1]
          dsimp only
          rw [if_neg h1, if_neg h2, if_neg h3]

/-! ## C5 -/

/-- Counterexample to claim C5 as stated: customer 7 has `visit_count = 4`
and redeems the `loyalty_reward` voucher `LO1`; the redemption commits, yet
the stored `visit_count` is still 4 (not 5), the tier is still `Bronze`
(not `Silver`), and no new voucher was created (the table still holds
exactly one row) — because the code invokes the loyalty update with action
`'redemption'`, which neither counts a visit nor creates a reward. -/
theorem loyalty_redemption_no_visit_counterexample :
    (∃ vr, (redeemVoucher noFaults dbFix "LO1" 3 50 0).2 = Except.ok vr) ∧
    findUser (redeemVoucher noFaults dbFix "LO1" 3 50 0).1 7 =
      some ⟨7, some 1, 4, "Bronze"⟩ ∧
    (redeemVoucher noFaults dbFix "LO1" 3 50 0).1.vouchers.length = 1 := by
  refine ⟨⟨_, rfl⟩, by decide, by decide⟩

/-- Amended claim C5: redeeming a `loyalty_reward` voucher tied to a
customer succeeds but leaves the customer's `visit_count` unchanged,
recomputes the tier from that unchanged count, and creates no new voucher —
the visit-completion path (increment plus tier-reward creation) runs only
for `updateUserLoyalty(_, 'visit')`, which redemption never invokes. -/
theorem redeem_loyalty_reward_no_visit (f : Faults) (db : Db) (code : String)
    (rid now ts : Nat) (v : Voucher) (uid : Nat) (u : User)
    (hv : findVoucherByCode db code = some v)
    (hact : v.status = VoucherStatus.active)
    (hexp : ¬ v.expires_at < now)
    (huid : v.user_id = some uid)
    (hty : v.vtype = "loyalty_reward")
    (hu : findUser db uid = some u) :
    (redeemVoucher f db code rid now ts).2 =
      Except.ok
        { v with status := VoucherStatus.redeemed,
                 redeemed_at := some now, redeemed_by := some rid } ∧
    findUser (redeemVoucher f db code rid now ts).1 uid =
      some { u with loyalty_tier := computeTier u.visit_count } ∧
    (redeemVoucher f db code rid now ts).1.vouchers.length = db.vouchers.length := by
  have hc := redeemVoucher_commit f db code rid now ts v hv hact hexp
  refine ⟨hc.1, ?_, ?_⟩
  · have husers := hc.2.2.2 uid u huid hty hu
    have huid' : u.id = uid := by
      have hmem := List.find?_some hu
      simpa using hmem
    show (redeemVoucher f db code rid now ts).1.users.find? (fun x => x.id = uid) = _
    rw [husers,
      find?_map_comm _ _ (fun a => by by_cases hw : a.id = uid <;> simp [hw]) db.users,
      show db.users.find? (fun x => x.id = uid) = some u from hu]
    simp [huid']
  · rw [hc.2.1]
    simp

/-- Concrete instance of the amended C5 (customer 7 at four visits stays at
four visits and Bronze, with no new voucher row). -/
theorem redeem_loyalty_reward_no_visit_witness :
    (redeemVoucher noFaults dbFix "LO1" 3 50 0).2 =
      Except.ok
        { vActive with status := VoucherStatus.redeemed,
                       redeemed_at := some 50, redeemed_by := some 3 } ∧
    findUser (redeemVoucher noFaults dbFix "LO1" 3 50 0).1 7 =
      some { uBronze4 with loyalty_tier := computeTier uBronze4.visit_count } ∧
    (redeemVoucher noFaults dbFix "LO1" 3 50 0).1.vouchers.length =
      dbFix.vouchers.length :=
  redeem_loyalty_reward_no_visit noFaults dbFix "LO1" 3 50 0 vActive 7 uBronze4
    (by decide) (by decide) (by decide) (by decide) (by decide) (by decide)

/-! ## C6 -/

/-- Claim C6: every rejected redeem returns exactly one of the four
distinguishable kinds, under the source's ordered case analysis — `NotFound`
iff no voucher has the code; `AlreadyRedeemed` when the status is redeemed;
`Expired` when (not redeemed and) the expiry has passed, in particular even
when the stored status is still nominally `active`; `NotActive` when the
voucher is cancelled and unexpired; and no other error kind (no generic
catch-all) is reachable. -/
theorem redeem_error_taxonomy (f : Faults) (db : Db) (code : String) (rid now ts : Nat) :
    ((redeemVoucher f db code rid now ts).2 = Except.error RedeemError.NotFound ↔
      findVoucherByCode db code = none) ∧
    (∀ v, findVoucherByCode db code = some v →
      (v.status = VoucherStatus.redeemed →
        (redeemVoucher f db code rid now ts).2 = Except.error RedeemError.AlreadyRedeemed) ∧
      (v.status ≠ VoucherStatus.redeemed → v.expires_at < now →
        (redeemVoucher f db code rid now ts).2 = Except.error RedeemError.Expired) ∧
      (v.status = VoucherStatus.active → v.expires_at < now →
        (redeemVoucher f db code rid now ts).2 = Except.error RedeemError.Expired) ∧
      (v.status = VoucherStatus.cancelled → ¬ v.expires_at < now →
        (redeemVoucher f db code rid now ts).2 = Except.error RedeemError.NotActive)) ∧
    (∀ err, (redeemVoucher f db code rid now ts).2 = Except.error err →
      err = RedeemError.NotFound ∨ err = RedeemError.AlreadyRedeemed ∨
      err = RedeemError.Expired ∨ err = RedeemError.NotActive) := by
  have hr := redeemVoucher_result f db code rid now ts
  refine ⟨⟨?_, ?_⟩, ?_, ?_⟩
  · intro herr
    cases hv : findVoucherByCode db code with
    | none => rfl
    | some v =>
      rw [hv] at hr
      dsimp only at hr
      rw [hr] at herr
      split at herr
      · simp at herr
      · split at herr
        · simp at herr
        · split at herr
          · simp at herr
          · simp at herr
  · intro hnone
    rw [hnone] at hr
    exact hr
  · intro v hv
    rw [hv] at hr
    dsimp only at hr
    refine ⟨?_, ?_, ?_, ?_⟩
    · intro h1
      rw [if_pos h1] at hr
      exact hr
    · intro h1 h2
      rw [if_neg h1, if_pos h2] at hr
      exact hr
    · intro h1 h2
      rw [if_neg (by simp [h1]), if_pos h2] at hr
      exact hr
    · intro h1 h2
      rw [if_neg (by simp [h1]), if_neg h2, if_pos (by simp [h1])] at hr
      exact hr
  · intro err herr
    cases hv : findVoucherByCode db code with
    | none =>
      rw [hv] at hr
      dsimp only at hr
      rw [hr] at herr
      injection herr with h
      exact Or.inl h.symm
    | some v =>
      rw [hv] at hr
      dsimp only at hr
      rw [hr] at herr
      split at herr
      · injection herr with h
        exact Or.inr (Or.inl h.symm)
      · split at herr
        · injection herr with h
          exact Or.inr (Or.inr (Or.inl h.symm))
        · split at herr
          · injection herr with h
            exact Or.inr (Or.inr (Or.inr h.symm))
          · exact Except.noConfusion herr

/-! ## C3 -/

/-- Claim C3: at most one staff-WiFi voucher per staff member per calendar
day — (a) with today's flag consumed the call fails with `DailyLimitReached`
and changes nothing; (b) after any successful issuance, an immediate second
call the same day fails with `DailyLimitReached`; (c) the manager override
(which resets the flag and issues) succeeds whenever the staff member exists
and the next generated code is fresh. -/
theorem staff_daily_limit (f : Faults) (db : Db) (today : String) (now ts : Nat) :
    (∀ sid st, findStaffById db sid = some st →
      st.last_voucher_date = some today → st.daily_voucher_used = true →
      createStaffWiFiVoucher f db sid today now ts =
        (db, Except.error OpError.DailyLimitReached)) ∧
    (∀ sid db' v, createStaffWiFiVoucher f db sid today now ts = (db', Except.ok v) →
      (createStaffWiFiVoucher f db' sid today now ts).2 =
        Except.error OpError.DailyLimitReached) ∧
    (∀ em mid st c rest, findStaffByEmail db em = some st →
      db.codeSupply = c :: rest →
      db.vouchers.any (fun v => v.code = c) = false →
      ∃ v, (overrideStaffWiFi f db em mid today now ts).2 = Except.ok v) := by
  refine ⟨?_, ?_, ?_⟩
  · intro sid st hs hdate hused
    unfold createStaffWiFiVoucher
    rw [hs]
    dsimp only
    rw [if_pos ⟨hdate, hused⟩]
  · intro sid db' v hsucc
    unfold createStaffWiFiVoucher at hsucc
    cases hs : findStaffById db sid with
    | none =>
      rw [hs] at hsucc
      injection hsucc with h1 h2
      exact Except.noConfusion h2
    | some st =>
      rw [hs] at hsucc
      dsimp only at hsucc
      by_cases hg : st.last_voucher_date = some today ∧ st.daily_voucher_used = true
      · rw [if_pos hg] at hsucc
        injection hsucc with h1 h2
        exact Except.noConfusion h2
      · rw [if_neg hg] at hsucc
        rcases hcv : createVoucher f db
          ⟨none, st.site_id, "staff_wifi", "Staff WiFi Access", 0, 24, "staff", some sid⟩
          now ts with ⟨db1, res⟩
        rw [hcv] at hsucc
        cases res with
        | error e =>
          injection hsucc with h1 h2
          exact Except.noConfusion h2
        | ok v0 =>
          injection hsucc with h1 h2
          have hstaff1 : db1.staff = db.staff := by
            have h := (createVoucher_evolve f db
              ⟨none, st.site_id, "staff_wifi", "Staff WiFi Access", 0, 24, "staff", some sid⟩
              now ts).2.1
            rw [hcv] at h
            exact h
          have hsid : st.id = sid := by simpa using List.find?_some hs
          subst h1
          unfold createStaffWiFiVoucher
          have hfind : findStaffById
              { db1 with staff := db1.staff.map (fun s =>
                  if s.id = sid then
                    { s with daily_voucher_used := true, last_voucher_date := some today }
                  else s) } sid =
              some { st with daily_voucher_used := true, last_voucher_date := some today } := by
            show (db1.staff.map _).find? _ = _
            rw [find?_map_comm _ _ (fun a => by by_cases hw : a.id = sid <;> simp [hw]),
              hstaff1,
              show db.staff.find? (fun s => s.id = sid) = some st from hs]
            simp [hsid]
          rw [hfind]
          dsimp only
          rw [if_pos ⟨rfl, rfl⟩]
  · intro em mid st c rest hse hsup hfresh
    have hmem : st ∈ db.staff := List.mem_of_find?_eq_some hse
    have hex : (db.staff.find? (fun s => s.id = st.id)).isSome := by
      apply List.find?_isSome.mpr
      exact ⟨st, hmem, by simp⟩
    obtain ⟨x, hx⟩ := Option.isSome_iff_exists.mp hex
    have hxid : x.id = st.id := by simpa using List.find?_some hx
    unfold overrideStaffWiFi
    rw [hse]
    dsimp only
    unfold createStaffWiFiVoucher
    have hfind : findStaffById
        { db with staff := db.staff.map (fun s =>
            if s.id = st.id then { s with daily_voucher_used := false } else s) } st.id =
        some { x with daily_voucher_used := false } := by
      show (db.staff.map _).find? _ = _
      rw [find?_map_comm _ _ (fun a => by by_cases hw : a.id = st.id <;> simp [hw]), hx]
      simp [hxid]
    rw [hfind]
    dsimp only
    rw [if_neg (by intro h; exact Bool.noConfusion h.2)]
    unfold createVoucher generateVoucherCode
    rw [show ({ db with staff := db.staff.map (fun s =>
        if s.id = st.id then { s with daily_voucher_used := false } else s) } : Db).codeSupply
        = c :: rest from hsup]
    dsimp only
    rw [if_neg (by simp [hfresh])]
    exact ⟨_, rfl⟩

/-- A staff member with a clean daily flag. -/
def stFresh : StaffMember := ⟨21, some 1, "fresh@site", false, none⟩

/-- Store for the staff daily-limit scenario. -/
def dbStaffFresh : Db := ⟨[], [], [stFresh], [], ["SC1", "SC2", "SC3"], 1⟩

/-- Concrete instance of C3: issue succeeds, the same-day second call fails
with `DailyLimitReached`, and the manager override then succeeds. -/
theorem staff_daily_limit_witness :
    (createStaffWiFiVoucher noFaults
        (createStaffWiFiVoucher noFaults dbStaffFresh 21 "2026-01-01" 0 0).1
        21 "2026-01-01" 0 0).2 = Except.error OpError.DailyLimitReached ∧
    (∃ v, (overrideStaffWiFi noFaults
        (createStaffWiFiVoucher noFaults dbStaffFresh 21 "2026-01-01" 0 0).1
        "fresh@site" 5 "2026-01-01" 0 0).2 = Except.ok v) := by
  constructor
  · exact (staff_daily_limit noFaults dbStaffFresh "2026-01-01" 0 0).2.1 21
      (createStaffWiFiVoucher noFaults dbStaffFresh 21 "2026-01-01" 0 0).1
      ((createStaffWiFiVoucher noFaults dbStaffFresh 21 "2026-01-01" 0 0).2.toOption.get
        (by decide))
      (by decide)
  · exact (staff_daily_limit noFaults
      (createStaffWiFiVoucher noFaults dbStaffFresh 21 "2026-01-01" 0 0).1
      "2026-01-01" 0 0).2.2 "fresh@site" 5
      ({ stFresh with daily_voucher_used := true, last_voucher_date := some "2026-01-01" })
      "SC2" ["SC3"] (by decide) (by decide) (by decide)

/-! ## C4 -/

/-- The code's `if/else if` chain agrees with the spec's description of the
threshold table: the highest tier whose threshold does not exceed the
count. -/
theorem computeTier_eq_spec (n : Nat) : computeTier n = specLoyaltyTier n := by
  unfold computeTier specLoyaltyTier loyaltyThresholds
  by_cases h30 : 30 ≤ n
  · have h15 : 15 ≤ n := by omega
    have h5 : 5 ≤ n := by omega
    simp [h30, h15, h5, List.getLast?, List.filter]
  · by_cases h15 : 15 ≤ n
    · have h5 : 5 ≤ n := by omega
      simp [h30, h15, h5, List.getLast?, List.filter]
    · by_cases h5 : 5 ≤ n
      · simp [h30, h15, h5, List.getLast?, List.filter]
      · simp [h30, h15, h5, List.getLast?, List.filter]

/-- One `recordVisit` call: the stored row gets `visit_count + 1` and the
tier recomputed from the new count; when the call returns a record, its
fields are the new count, the recomputed tier, and `tier_changed` true
exactly when the recomputed tier differs from the stored one. -/
theorem recordVisit_step (f : Faults) (db : Db) (uid : Nat) (u : User) (now ts : Nat)
    (hu : findUser db uid = some u) :
    findUser (recordVisit f db uid now ts).1 uid =
      some { u with visit_count := u.visit_count + 1,
                    loyalty_tier := computeTier (u.visit_count + 1) } ∧
    (∀ r, (recordVisit f db uid now ts).2 = Except.ok (some r) →
      r.visit_count = u.visit_count + 1 ∧
      r.loyalty_tier = computeTier (u.visit_count + 1) ∧
      (r.tier_changed = true ↔ computeTier (u.visit_count + 1) ≠ u.loyalty_tier)) := by
  have huid' : u.id = uid := by simpa using List.find?_some hu
  unfold recordVisit updateUserLoyalty
  rw [hu]
  dsimp only
  simp only [reduceIte, and_true]
  by_cases htc : decide (computeTier (u.visit_count + 1) ≠ u.loyalty_tier) = true
  · rw [if_pos htc]
    rcases hcr : createLoyaltyReward f
      { db with users := db.users.map (fun w =>
          if w.id = uid then
            { w with visit_count := u.visit_count + 1,
                     loyalty_tier := computeTier (u.visit_count + 1) }
          else w) } uid (computeTier (u.visit_count + 1)) now ts with ⟨db2, res⟩
    have hus := (createLoyaltyReward_evolve f
      { db with users := db.users.map (fun w =>
          if w.id = uid then
            { w with visit_count := u.visit_count + 1,
                     loyalty_tier := computeTier (u.visit_count + 1) }
          else w) } uid (computeTier (u.visit_count + 1)) now ts).2.2
    rw [hcr] at hus
    constructor
    · cases res with
      | error e =>
        show db2.users.find? (fun x => x.id = uid) = _
        rw [hus,
          find?_map_comm _ _ (fun a => by by_cases hw : a.id = uid <;> simp [hw]) db.users,
          show db.users.find? (fun x => x.id = uid) = some u from hu]
        simp [huid']
      | ok v =>
        show db2.users.find? (fun x => x.id = uid) = _
        rw [hus,
          find?_map_comm _ _ (fun a => by by_cases hw : a.id = uid <;> simp [hw]) db.users,
          show db.users.find? (fun x => x.id = uid) = some u from hu]
        simp [huid']
    · intro r hr
      cases res with
      | error e => exact Except.noConfusion hr
      | ok v =>
        dsimp only at hr
        injection hr with hr
        injection hr with hr
        rw [← hr]
        refine ⟨rfl, rfl, ?_⟩
        simp
  · rw [if_neg htc]
    constructor
    · show (db.users.map (fun w =>
          if w.id = uid then
            { w with visit_count := u.visit_count + 1,
                     loyalty_tier := computeTier (u.visit_count + 1) }
          else w)).find? (fun x => x.id = uid) = _
      rw [find?_map_comm _ _ (fun a => by by_cases hw : a.id = uid <;> simp [hw]) db.users,
        show db.users.find? (fun x => x.id = uid) = some u from hu]
      simp [huid']
    · intro r hr
      dsimp only at hr
      injection hr with hr
      injection hr with hr
      rw [← hr]
      refine ⟨rfl, rfl, ?_⟩
      simp

/-- Iterated visits: after `N` recorded visits the stored count has grown by
exactly `N` and (for `N ≥ 1`) the stored tier is the recomputation from the
final count — independent of the increment history. -/
theorem iterateVisits_count (f : Faults) (uid : Nat) (now ts : Nat) :
    ∀ (N : Nat) (db : Db) (u : User), findUser db uid = some u →
      ∃ u', findUser (iterateVisits f uid now ts N db) uid = some u' ∧
        u'.visit_count = u.visit_count + N ∧
        (1 ≤ N → u'.loyalty_tier = computeTier (u.visit_count + N)) := by
  intro N
  induction N with
  | zero =>
    intro db u hu
    exact ⟨u, hu, rfl, fun h => absurd h (by omega)⟩
  | succ n ih =>
    intro db u hu
    have hstep := recordVisit_step f db uid u now ts hu
    obtain ⟨u', hu', hc', ht'⟩ := ih (recordVisit f db uid now ts).1 _ hstep.1
    refine ⟨u', hu', by simp at hc' ⊢; omega, ?_⟩
    intro _
    by_cases hn : 1 ≤ n
    · rw [ht' hn]
      have harith : u.visit_count + 1 + n = u.visit_count + (n + 1) := by omega
      simp [harith]
    · have hn0 : n = 0 := by omega
      subst hn0
      have hu'' : findUser (recordVisit f db uid now ts).1 uid = some u' := hu'
      rw [hstep.1] at hu''
      injection hu'' with heq
      rw [← heq]

/-- Claim C4: `recordVisit` increments `visit_count` by exactly 1 and
recomputes the tier as the spec's threshold lookup on the new count,
reporting `tierChanged` exactly when the tier moved; iterating from a fresh
customer, after `N` visits the stored tier is the threshold lookup at
`visit_count = N`, independent of the history of increments. -/
theorem recordVisit_tier_spec :
    (∀ n, computeTier n = specLoyaltyTier n) ∧
    (∀ (f : Faults) (db : Db) (uid : Nat) (u : User) (now ts : Nat),
      findUser db uid = some u →
      findUser (recordVisit f db uid now ts).1 uid =
        some { u with visit_count := u.visit_count + 1,
                      loyalty_tier := specLoyaltyTier (u.visit_count + 1) } ∧
      (∀ r, (recordVisit f db uid now ts).2 = Except.ok (some r) →
        r.visit_count = u.visit_count + 1 ∧
        r.loyalty_tier = specLoyaltyTier (u.visit_count + 1) ∧
        (r.tier_changed = true ↔ specLoyaltyTier (u.visit_count + 1) ≠ u.loyalty_tier))) ∧
    (∀ (f : Faults) (uid now ts N : Nat) (db : Db) (u : User),
      findUser db uid = some u → u.visit_count = 0 → 1 ≤ N →
      ∃ u', findUser (iterateVisits f uid now ts N db) uid = some u' ∧
        u'.visit_count = N ∧ u'.loyalty_tier = specLoyaltyTier N) := by
  refine ⟨computeTier_eq_spec, ?_, ?_⟩
  · intro f db uid u now ts hu
    have h := recordVisit_step f db uid u now ts hu
    rw [← computeTier_eq_spec]
    exact h
  · intro f uid now ts N db u hu h0 hN
    obtain ⟨u', hu', hc', ht'⟩ := iterateVisits_count f uid now ts N db u hu
    refine ⟨u', hu', by rw [hc', h0, Nat.zero_add], ?_⟩
    rw [ht' hN, h0, Nat.zero_add, computeTier_eq_spec]

/-- A brand-new customer. -/
def uZero : User := ⟨9, some 1, 0, "Bronze"⟩

/-- Store for the iterated-visit scenario, with enough pending codes for the
tier-reward vouchers created along the way. -/
def dbVisit0 : Db := ⟨[], [uZero], [], [], ["CA", "CB", "CC", "CD", "CE", "CF"], 1⟩

/-- Concrete instance of C4: after five recorded visits from zero, the
stored count is 5 and the stored tier is the spec lookup at 5 (Silver). -/
theorem recordVisit_tier_spec_witness :
    computeTier 7 = specLoyaltyTier 7 ∧
    ∃ u', findUser (iterateVisits noFaults 9 0 0 5 dbVisit0) 9 = some u' ∧
      u'.visit_count = 5 ∧ u'.loyalty_tier = specLoyaltyTier 5 :=
  ⟨recordVisit_tier_spec.1 7,
    recordVisit_tier_spec.2.2 noFaults 9 0 0 5 dbVisit0 uZero (by decide) rfl
      (by decide)⟩

/-- Concrete instances of C6: an unknown code is `NotFound`, and the
still-`active` voucher `LO1` queried after its expiry is `Expired`. -/
theorem redeem_error_taxonomy_witness :
    (redeemVoucher noFaults dbFix "NOPE" 3 50 0).2 = Except.error RedeemError.NotFound ∧
    (redeemVoucher noFaults dbFix "LO1" 3 200 0).2 = Except.error RedeemError.Expired := by
  constructor
  · exact (redeem_error_taxonomy noFaults dbFix "NOPE" 3 50 0).1.mpr (by decide)
  · exact ((redeem_error_taxonomy noFaults dbFix "LO1" 3 200 0).2.1 vActive
      (by decide)).2.2.1 (by decide) (by decide)

end WifiPortal
